import Mathlib

/-!
# Verification of the nplab grid-scan acquisition engine

Shallow embedding of `nplab/experiment/gridscanner.py` (class `GridScanner`)
and proofs about it.  Python `float64` values are modelled as exact rationals
(`ℚ`); the fixed unit-conversion factors, grid arithmetic and rescaling
factors are all small decimal fractions, so the rational model matches the
float code up to the tolerances the specification itself allows (1e-9
relative).  Python exceptions are modelled with `Except`, the error case
carrying the state (mutations performed before the raise are kept, exactly
as in Python).  The stateful scan loop `GridScanner.scan_grid` is embedded
as an interpreter producing a trace of externally visible events (stage
moves, per-point measurements, hook invocations, status updates).
-/

namespace GridScanner

/-- Models `GridScanner._unit_conversion = {'nm': 1e-9, 'um': 1e-6, 'mm': 1e-3}`;
`none` for a key not in the dict (Python would raise `KeyError` on lookup). -/
def unit_conversion (u : String) : Option ℚ :=
  if u = "nm" then some (1 / 1000000000)
  else if u = "um" then some (1 / 1000000)
  else if u = "mm" then some (1 / 1000)
  else none

/-- Models `np.arange(start, stop, step)` on float64 arguments: the result has
`max(ceil((stop-start)/step), 0)` elements `start + i*step`; a zero step makes
numpy raise `ZeroDivisionError`. -/
def arange (start stop step : ℚ) : Except String (List ℚ) :=
  if step = 0 then Except.error "ZeroDivisionError: division by zero"
  else
    Except.ok ((List.range (⌈(stop - start) / step⌉).toNat).map
      (fun (i : Nat) => start + (i : ℚ) * step))

/-- Models one iteration of the loop body of `GridScanner.init_grid`, after
unit conversion: `ax = np.arange(0, s + st/2., st) - s/2. + s0` where `s`,
`st`, `s0` are the converted size, step and init of the axis. -/
def buildAxis (s st s0 : ℚ) : Except String (List ℚ) :=
  match arange 0 (s + st / 2) st with
  | Except.error e => Except.error e
  | Except.ok ax => Except.ok (ax.map (fun x => x - s / 2 + s0))

/-- Zips the three per-axis parameter arrays into per-axis triples
`(size, step, init)` (the Python loop indexes the three arrays in lockstep). -/
def zip3Q : List ℚ → List ℚ → List ℚ → List (ℚ × ℚ × ℚ)
  | s1 :: t1, s2 :: t2, s3 :: t3 => (s1, s2, s3) :: zip3Q t1 t2 t3
  | _, _, _ => []

/-- Models the loop of `GridScanner.init_grid` over the axes: each axis is
built from its `(size, step, init)` triple scaled by the unit-conversion
factors `cs`, `ct`, `ci` of `size_unit`, `step_unit`, `init_unit`.  The first
axis whose `arange` raises aborts the whole build (Python exception). -/
def buildAxes (cs ct ci : ℚ) : List (ℚ × ℚ × ℚ) → Except String (List (List ℚ))
  | [] => Except.ok []
  | (s, st, s0) :: rest =>
    match buildAxis (s * cs) (st * ct) (s0 * ci) with
    | Except.error e => Except.error e
    | Except.ok ax =>
      match buildAxes cs ct ci rest with
      | Except.error e => Except.error e
      | Except.ok axs => Except.ok (ax :: axs)

/-- The result of `GridScanner.init_grid`: the per-axis coordinate arrays
`scan_axes`, `grid_shape = tuple(ax.size for ax in scan_axes)` and
`total_points = reduce(operator.mul, grid_shape, 1)`. -/
structure GridResult where
  scan_axes : List (List ℚ)
  grid_shape : List Nat
  total_points : Nat
  deriving DecidableEq, Repr

/-- Models `GridScanner.init_grid(axes, size, step, init)` with the three unit
tags taken from the instance.  Pure: it performs no stage motion.  (The
Python loop runs `range(len(axes))` and indexes the arrays; the claims only
exercise states where the four sequences have equal length, where the
`zip3Q` truncation coincides with the Python indexing.) -/
def init_grid (axes : List String) (size step init : List ℚ)
    (size_unit step_unit init_unit : String) : Except String GridResult :=
  match unit_conversion size_unit, unit_conversion step_unit,
      unit_conversion init_unit with
  | some cs, some ct, some ci =>
    match buildAxes cs ct ci ((zip3Q size step init).take axes.length) with
    | Except.error e => Except.error e
    | Except.ok axs =>
      Except.ok { scan_axes := axs, grid_shape := axs.map List.length,
                  total_points := (axs.map List.length).prod }
  | _, _, _ => Except.error "KeyError: invalid unit"

/-- The per-axis parameter state of a `GridScanner` instance: the sequences
`axes`, `axes_names`, `size`, `step`, `init`, the axis count `_num_axes`, and
the three unit tags `_size_unit`, `_step_unit`, `_init_unit`. -/
structure GSState where
  axes : List String
  axes_names : List String
  size : List ℚ
  step : List ℚ
  init : List ℚ
  num_axes : Nat
  size_unit : String
  step_unit : String
  init_unit : String
  deriving DecidableEq, Repr

/-- Selects which parameter array `rescale_parameter` acts on
(`param` in `{'size', 'step', 'init'}`). -/
inductive Param where
  | size
  | step
  | init
  deriving DecidableEq, Repr

/-- Models `getattr(self, param)` for the three parameter arrays. -/
def getParam (s : GSState) : Param → List ℚ
  | Param.size => s.size
  | Param.step => s.step
  | Param.init => s.init

/-- Models `getattr(self, '_%s_unit' % param)`. -/
def getUnitTag (s : GSState) : Param → String
  | Param.size => s.size_unit
  | Param.step => s.step_unit
  | Param.init => s.init_unit

/-- Models `setattr(self, '_%s_unit' % param, value)`. -/
def setUnitTag (s : GSState) (p : Param) (u : String) : GSState :=
  match p with
  | Param.size => { s with size_unit := u }
  | Param.step => { s with step_unit := u }
  | Param.init => { s with init_unit := u }

/-- Models the in-place numpy scaling `a *= factor` of a parameter array. -/
def scaleParam (s : GSState) (p : Param) (f : ℚ) : GSState :=
  match p with
  | Param.size => { s with size := s.size.map (fun x => x * f) }
  | Param.step => { s with step := s.step.map (fun x => x * f) }
  | Param.init => { s with init := s.init.map (fun x => x * f) }

/-- Models `GridScanner.rescale_parameter(param, value)`.  The Python body is
`assert value in self._unit_conversion.keys(); old = getattr(unit attr);`
`setattr(unit attr, value); a = getattr(param); a *= conv[old]/conv[value]`.
An `Except.error` carries the state at the moment of the raise (the failed
assert fires before any mutation; a `KeyError` on the old tag would fire
after the unit tag was already reassigned, exactly as in Python). -/
def rescale_parameter (s : GSState) (p : Param) (value : String) :
    Except (String × GSState) GSState :=
  match unit_conversion value with
  | none => Except.error ("a valid unit must be supplied", s)
  | some cNew =>
    let old_value := getUnitTag s p
    let s1 := setUnitTag s p value
    match unit_conversion old_value with
    | none => Except.error ("KeyError", s1)
    | some cOld => Except.ok (scaleParam s1 p (cOld / cNew))

/-- Models `GridScanner._update_axes(num_axes)` (the setter of the `num_axes`
property): grow by copying the existing entries into fresh zero/empty-filled
sequences of the new length, or shrink by truncating each sequence.  The
Python slice assignments use `len(current_axes)` for every sequence; on the
class invariant (all five sequences share one length) that is each
sequence's own length, as written here. -/
def update_axes (s : GSState) (n : Nat) : GSState :=
  if s.axes.length < n then
    { s with
      num_axes := n
      axes := s.axes ++ List.replicate (n - s.axes.length) ""
      axes_names := s.axes_names ++ List.replicate (n - s.axes_names.length) ""
      size := s.size ++ List.replicate (n - s.size.length) 0
      step := s.step ++ List.replicate (n - s.step.length) 0
      init := s.init ++ List.replicate (n - s.init.length) 0 }
  else
    { s with
      num_axes := n
      axes := s.axes.take n
      axes_names := s.axes_names.take n
      size := s.size.take n
      step := s.step.take n
      init := s.init.take n }

/-- Return value of `GridScanner.get_estimated_time_remaining`:
`notAvailable` models the `np.inf` sentinel returned before any scan has ever
run (no `_step_times` attribute exists yet); `dur t` models a finite
duration `t` in seconds. -/
inductive ETA where
  | notAvailable
  | dur (t : ℚ)
  deriving DecidableEq, Repr

/-- Models `GridScanner.get_estimated_time_remaining`.  `step_times` is the
flattened `_step_times` array, `none` entries being the `NaN` fills of
points not yet measured, with the outer `Option` modelling whether the
`_step_times` attribute exists at all (it is created by the first scan).
`np.mean` over the finite entries is the exact rational mean. -/
def get_estimated_time_remaining (step_times : Option (List (Option ℚ)))
    (index total_points : Nat) : ETA :=
  match step_times with
  | none => ETA.notAvailable
  | some ts =>
    let finite := ts.filterMap id
    if finite.length = 0 then ETA.dur 0
    else
      ETA.dur (((total_points : ℚ) - (index : ℚ)) *
        (finite.sum / (finite.length : ℚ)))

/-- Externally visible events of `GridScanner.scan_grid`, in program order:
stage moves (`self.move(pos, axis)`), per-point measurements (the
`self._timed_scan_function(*indices)` calls, indices innermost first as in
the code), the drift-compensation hook, the lifecycle hooks `open_scan`,
`analyse_scan`, `close_scan`, and assignments to `self.status`. -/
inductive Event where
  | move (axis : String) (pos : ℚ)
  | measure (indices : List Nat)
  | driftCompensation
  | openScan
  | analyseScan
  | closeScan
  | statusSet (s : String)
  deriving DecidableEq, Repr

/-- The mutable state threaded through the loops of `scan_grid`: the event
trace so far, the current `self.status` string, `self._index` (count of
completed points) and the current orientation of the two reversible index
lists (`pnts[-2]` and `pnts[-3]`, which the code re-reverses in place with
`[::-1]` at each advance of the enclosing axis). -/
structure LoopSt where
  trace : List Event
  status : String
  idx : Nat
  rev2 : Bool
  rev3 : Bool
  deriving DecidableEq, Repr

/-- The observable outcome of a `scan_grid` call: its event trace, the final
`self.status`, and the final `self._index`. -/
structure ScanOutcome where
  trace : List Event
  status : String
  index : Nat
  deriving DecidableEq, Repr

/-- The value read from `self.abort_requested` at a loop check point.
`abort_requested` is set asynchronously by `GridScanner.abort`; it starts
`False` (reset at scan entry) and once set stays set, so every schedule is
captured by the count of completed points after which the flag reads true:
`some t` means the flag is seen raised at any check once `t` points have
completed, `none` means no abort is ever requested. -/
def readAbort (abortAfter : Option Nat) (cnt : Nat) : Bool :=
  match abortAfter with
  | none => false
  | some t => decide (t ≤ cnt)

/-- The status string `'Scanning layer {0:d}/{1:d}'.format(k + 1, len(pnts[-1]))`. -/
def layerStatus (k nlayers : Nat) : String :=
  "Scanning layer " ++ Nat.repr (k + 1) ++ "/" ++ Nat.repr nlayers

/-- The innermost loop `for i in pnts[-3]` of `scan_grid` (3-axis scans
only): check `abort_requested` (break on it), move axis `axes[-3]` to
`scan_axes[-3][i]`, set `indices`, run `_timed_scan_function(i, j, k)` (the
user measurement, which may raise), increment `_index`.  `sFail indices`
tells whether the user-supplied `scan_function` raises at those indices. -/
def scan_inner3 (sFail : List Nat → Bool) (ab : Option Nat)
    (ax2 : String) (sa2 : List ℚ) (j k : Nat) :
    List Nat → LoopSt → Except (String × LoopSt) LoopSt
  | [], st => Except.ok st
  | i :: rest, st =>
    if readAbort ab st.idx then Except.ok st
    else
      let st1 := { st with
        trace := st.trace ++ [Event.move ax2 (sa2.getD i 0), Event.measure [i, j, k]] }
      if sFail [i, j, k] then Except.error ("scan_function exception", st1)
      else scan_inner3 sFail ab ax2 sa2 j k rest { st1 with idx := st1.idx + 1 }

/-- The middle loop `for j in pnts[-2]` of `scan_grid`: check
`abort_requested` (break), move axis `axes[-2]` to `scan_axes[-2][j]`, then
for 3-axis scans reverse `pnts[-3]` and run the innermost loop, for
2-axis scans run `_timed_scan_function(j, k)` directly, and for any other
number of axes do nothing further (neither branch of the
`if len(axes) == 3 ... elif len(axes) == 2` applies). -/
def scan_mid (sFail : List Nat → Bool) (ab : Option Nat) (n : Nat)
    (ax1 ax2 : String) (sa1 sa2 : List ℚ) (shape2 : Nat) (k : Nat) :
    List Nat → LoopSt → Except (String × LoopSt) LoopSt
  | [], st => Except.ok st
  | j :: rest, st =>
    if readAbort ab st.idx then Except.ok st
    else
      let st1 := { st with trace := st.trace ++ [Event.move ax1 (sa1.getD j 0)] }
      if n = 3 then
        let st2 := { st1 with rev3 := !st1.rev3 }
        let il := if st2.rev3 then (List.range shape2).reverse else List.range shape2
        match scan_inner3 sFail ab ax2 sa2 j k il st2 with
        | Except.error e => Except.error e
        | Except.ok st3 => scan_mid sFail ab n ax1 ax2 sa1 sa2 shape2 k rest st3
      else if n = 2 then
        let st2 := { st1 with trace := st1.trace ++ [Event.measure [j, k]] }
        if sFail [j, k] then Except.error ("scan_function exception", st2)
        else scan_mid sFail ab n ax1 ax2 sa1 sa2 shape2 k rest { st2 with idx := st2.idx + 1 }
      else
        scan_mid sFail ab n ax1 ax2 sa1 sa2 shape2 k rest st1

/-- The outermost loop `for k in pnts[-1]` of `scan_grid`: check
`abort_requested` (break), call `update_drift_compensation`, set the layer
status, move axis `axes[-1]` to `scan_axes[-1][k]`, reverse `pnts[-2]`, and
run the middle loop. -/
def scan_outer (sFail : List Nat → Bool) (ab : Option Nat) (n : Nat)
    (ax0 ax1 ax2 : String) (sa0 sa1 sa2 : List ℚ)
    (shape1 shape2 : Nat) (nlayers : Nat) :
    List Nat → LoopSt → Except (String × LoopSt) LoopSt
  | [], st => Except.ok st
  | k :: rest, st =>
    if readAbort ab st.idx then Except.ok st
    else
      let st1 := { st with
        trace := st.trace ++ [Event.driftCompensation,
          Event.statusSet (layerStatus k nlayers), Event.move ax0 (sa0.getD k 0)]
        status := layerStatus k nlayers
        rev2 := !st.rev2 }
      let jl := if st1.rev2 then (List.range shape1).reverse else List.range shape1
      match scan_mid sFail ab n ax1 ax2 sa1 sa2 shape2 k jl st1 with
      | Except.error e => Except.error e
      | Except.ok st2 =>
        scan_outer sFail ab n ax0 ax1 ax2 sa0 sa1 sa2 shape1 shape2 nlayers rest st2

/-- Models `GridScanner.scan_grid(axes, size, step, init)`: reset
`abort_requested`, build the grid (`init_grid`), run `open_scan`, set
`status = 'acquiring data'`, run the snaked loops, then unconditionally on
loop exit move every axis back to `init[i]` (`self.move(init[i], axes[i])`,
the raw parameter values, in axis order), run `analyse_scan` and
`close_scan`, and set `status = 'scan complete'`.  An exception anywhere
propagates at once, carrying the trace of the events that already happened.
(With fewer than two axes the Python code raises `IndexError` at the
`pnts[-1]`/`pnts[-2]` accesses; no claim exercises that path.) -/
def scan_grid (axes : List String) (size step init : List ℚ)
    (size_unit step_unit init_unit : String)
    (sFail : List Nat → Bool) (ab : Option Nat) :
    Except (String × ScanOutcome) ScanOutcome :=
  match init_grid axes size step init size_unit step_unit init_unit with
  | Except.error msg =>
    Except.error (msg, { trace := [], status := "inactive", index := 0 })
  | Except.ok g =>
    let n := axes.length
    if n < 2 then
      Except.error ("IndexError",
        { trace := [Event.openScan, Event.statusSet "acquiring data"],
          status := "acquiring data", index := 0 })
    else
      let axR := axes.reverse
      let saR := g.scan_axes.reverse
      let shR := g.grid_shape.reverse
      let st0 : LoopSt :=
        { trace := [Event.openScan, Event.statusSet "acquiring data"],
          status := "acquiring data", idx := 0, rev2 := false, rev3 := false }
      match scan_outer sFail ab n (axR.getD 0 "") (axR.getD 1 "") (axR.getD 2 "")
          (saR.getD 0 []) (saR.getD 1 []) (saR.getD 2 [])
          (shR.getD 1 0) (shR.getD 2 0) (shR.getD 0 0)
          (List.range (shR.getD 0 0)) st0 with
      | Except.error (msg, st) =>
        Except.error (msg, { trace := st.trace, status := st.status, index := st.idx })
      | Except.ok st =>
        Except.ok
          { trace := st.trace ++ (List.zip axes init).map (fun p => Event.move p.1 p.2)
              ++ [Event.analyseScan, Event.closeScan]
            status := "scan complete"
            index := st.idx }

/-- The sequence of per-point measurement indices in a trace, in order. -/
def measureEvents (tr : List Event) : List (List Nat) :=
  tr.filterMap (fun e =>
    match e with
    | Event.measure l => some l
    | _ => none)

/-- The outcome recorded in a `scan_grid` result, whether it returned
normally or raised (the error case carries the state at the raise). -/
def outcomeOf : Except (String × ScanOutcome) ScanOutcome → ScanOutcome
  | Except.ok o => o
  | Except.error e => e.2

/-- Whether a `scan_grid` result is a raised exception. -/
def isError : Except (String × ScanOutcome) ScanOutcome → Bool
  | Except.ok _ => false
  | Except.error _ => true

/-- The loop state recorded in a loop result, whether the loop returned
normally or raised. -/
def stOfL : Except (String × LoopSt) LoopSt → LoopSt
  | Except.ok s => s
  | Except.error e => e.2

/-- The index list an inner axis of `a` points is iterated in: forward when
its orientation flag is off, reversed when on (the state of the repeated
in-place `pnts[..] = pnts[..][::-1]` reversals). -/
def jOrder (a : Nat) (rev : Bool) : List Nat :=
  if rev then (List.range a).reverse else List.range a

/-- The events of one pass of the 2-axis middle loop over index list `jl` at
outer index `k`: a stage move then a measurement per inner point. -/
def midBlock (ax1 : String) (sa1 : List ℚ) (k : Nat) (jl : List Nat) : List Event :=
  jl.flatMap (fun j => [Event.move ax1 (sa1.getD j 0), Event.measure [j, k]])

/-- The events of the whole 2-axis outer loop over the outer indices `kl`,
starting with inner-orientation flag `r`: each layer toggles the flag first
(so the first layer runs with the flag set), emits the drift hook, the layer
status and the outer move, then the middle-loop block. -/
def outerBlock2 (ax0 ax1 : String) (sa0 sa1 : List ℚ) (a nlayers : Nat) :
    Bool → List Nat → List Event
  | _, [] => []
  | r, k :: rest =>
    Event.driftCompensation :: Event.statusSet (layerStatus k nlayers) ::
      Event.move ax0 (sa0.getD k 0) ::
      (midBlock ax1 sa1 k (jOrder a (!r)) ++
        outerBlock2 ax0 ax1 sa0 sa1 a nlayers (!r) rest)

/-- Boustrophedon order as the specification describes it, corrected for the
initial direction: the layer at outer index `k` traverses the `a` inner
indices with alternating direction, the direction reversing at every advance
of the outer axis; with the flag starting clear the first layer is the
reversed one. -/
def snakeGo (a : Nat) : Bool → List Nat → List (List Nat)
  | _, [] => []
  | r, k :: rest =>
    (jOrder a (!r)).map (fun j => [j, k]) ++ snakeGo a (!r) rest

/-- The full measurement-index order of a 2-axis boustrophedon scan of an
`a`-point inner axis by a `b`-point outer axis, first layer reversed. -/
def boustroOrder (a b : Nat) : List (List Nat) :=
  snakeGo a false (List.range b)

/-- A trace block contains neither the `analyse_scan` nor the `close_scan`
hook invocation (the post-loop finish phase of `scan_grid`). -/
def noFinish (tr : List Event) : Prop :=
  Event.analyseScan ∉ tr ∧ Event.closeScan ∉ tr

/-- Truncate-or-pad a sequence to length `n`, filling new trailing entries
with `x`: the canonical consistent resize the specification requires of
every per-axis sequence when `num_axes` changes. -/
def truncOrPad {α : Type} (n : Nat) (x : α) (l : List α) : List α :=
  l.take n ++ List.replicate (n - l.length) x

/-- A concrete two-axis scanner state (the default `size=1.0, step=0.05,
init=0.0` parameters at `um`, as set up by `GridScanner.__init__`), used to
instantiate the general theorems. -/
def sampleState : GSState :=
  { axes := ["x", "y"], axes_names := ["x", "y"], size := [1, 1],
    step := [1/20, 1/20], init := [0, 0], num_axes := 2,
    size_unit := "um", step_unit := "um", init_unit := "um" }

end GridScanner

namespace GridScanner

/-! ### Helper lemmas -/

theorem unit_conversion_ne_zero {u : String} {c : ℚ}
    (h : unit_conversion u = some c) : c ≠ 0 := by
  unfold unit_conversion at h
  split_ifs at h <;>
    first
    | exact Option.noConfusion h
    | (simp only [Option.some.injEq] at h
       subst h
       norm_num)

theorem getParam_setUnitTag (s : GSState) (p q : Param) (u : String) :
    getParam (setUnitTag s p u) q = getParam s q := by
  cases p <;> cases q <;> rfl

theorem getUnitTag_setUnitTag_same (s : GSState) (p : Param) (u : String) :
    getUnitTag (setUnitTag s p u) p = u := by
  cases p <;> rfl

theorem getParam_scaleParam_same (s : GSState) (p : Param) (f : ℚ) :
    getParam (scaleParam s p f) p = (getParam s p).map (fun x => x * f) := by
  cases p <;> rfl

theorem getUnitTag_scaleParam (s : GSState) (p q : Param) (f : ℚ) :
    getUnitTag (scaleParam s p f) q = getUnitTag s q := by
  cases p <;> cases q <;> rfl

theorem rescale_parameter_ok (s : GSState) (p : Param) (v : String)
    (cOld cNew : ℚ) (hOld : unit_conversion (getUnitTag s p) = some cOld)
    (hNew : unit_conversion v = some cNew) :
    rescale_parameter s p v =
      Except.ok (scaleParam (setUnitTag s p v) p (cOld / cNew)) := by
  unfold rescale_parameter
  rw [hNew]
  simp only [hOld]

/-! ### C10 -/

/-- C10: calling `rescale_parameter` with a unit string outside
`{nm, um, mm}` fails on the leading assert before performing any mutation:
the error carries the state at the raise, which is exactly the input state,
so both the unit tag and the parameter array are unchanged. -/
theorem rescale_invalid_unit_atomic (s : GSState) (p : Param) (u : String)
    (h : unit_conversion u = none) :
    rescale_parameter s p u = Except.error ("a valid unit must be supplied", s) := by
  unfold rescale_parameter
  rw [h]

/-- Witness for C10 at a concrete state and the invalid unit `'km'`. -/
theorem rescale_invalid_unit_atomic_witness :
    rescale_parameter sampleState Param.size "km" =
      Except.error ("a valid unit must be supplied", sampleState) :=
  rescale_invalid_unit_atomic sampleState Param.size "km" (by
    simp [unit_conversion])

/-! ### C6 -/

/-- C6: for every parameter array and every pair of valid units, rescaling
from unit A to unit B multiplies the stored values by `conv(A)/conv(B)` (so
`size=1.0` at `um` becomes `1000.0` at `nm`), and rescaling back from B to A
reproduces the original array exactly (hence within any tolerance): the
represented physical quantity is unchanged. -/
theorem rescale_roundtrip (s : GSState) (p : Param) (B : String) (cA cB : ℚ)
    (hA : unit_conversion (getUnitTag s p) = some cA)
    (hB : unit_conversion B = some cB) :
    ∃ s1 s2,
      rescale_parameter s p B = Except.ok s1 ∧
      getParam s1 p = (getParam s p).map (fun x => x * (cA / cB)) ∧
      getUnitTag s1 p = B ∧
      rescale_parameter s1 p (getUnitTag s p) = Except.ok s2 ∧
      getParam s2 p = getParam s p ∧
      getUnitTag s2 p = getUnitTag s p := by
  have hcA : cA ≠ 0 := unit_conversion_ne_zero hA
  have hcB : cB ≠ 0 := unit_conversion_ne_zero hB
  refine ⟨scaleParam (setUnitTag s p B) p (cA / cB),
    scaleParam (setUnitTag (scaleParam (setUnitTag s p B) p (cA / cB)) p
      (getUnitTag s p)) p (cB / cA),
    rescale_parameter_ok s p B cA cB hA hB, ?_, ?_, ?_, ?_, ?_⟩
  · rw [getParam_scaleParam_same, getParam_setUnitTag]
  · rw [getUnitTag_scaleParam, getUnitTag_setUnitTag_same]
  · exact rescale_parameter_ok _ p _ cB cA
      (by rw [getUnitTag_scaleParam, getUnitTag_setUnitTag_same]; exact hB) hA
  · rw [getParam_scaleParam_same, getParam_setUnitTag,
      getParam_scaleParam_same, getParam_setUnitTag, List.map_map]
    have hcomp : ((fun x => x * (cB / cA)) ∘ fun x => x * (cA / cB)) = fun x => x := by
      funext x
      field_simp
    rw [hcomp]
    exact List.map_id' _
  · rw [getUnitTag_scaleParam, getUnitTag_setUnitTag_same]

/-- Witness for C6: `size = [1.0]` at `um` rescaled to `nm` becomes
`[1000.0]`, and rescaling back to `um` restores `[1.0]`. -/
theorem rescale_roundtrip_witness :
    ∃ s1 s2,
      rescale_parameter sampleState Param.size "nm" = Except.ok s1 ∧
      getParam s1 Param.size = [1000, 1000] ∧
      rescale_parameter s1 Param.size "um" = Except.ok s2 ∧
      getParam s2 Param.size = [1, 1] := by
  obtain ⟨s1, s2, h1, h2, h3, h4, h5, h6⟩ :=
    rescale_roundtrip sampleState Param.size "nm" (1/1000000) (1/1000000000)
      (by simp [unit_conversion, getUnitTag, sampleState])
      (by simp [unit_conversion])
  refine ⟨s1, s2, h1, ?_, h4, by rw [h5]; rfl⟩
  rw [h2]
  show List.map _ [(1 : ℚ), 1] = _
  norm_num

/-! ### C5 -/

/-- C5: the time-remaining estimator returns the not-available sentinel
(`np.inf`) before any scan has created `_step_times`; returns exactly 0 when
step times exist but none are finite yet; returns
`(total_points - linear_index) * mean(finite step_times)` when finite
entries exist; and in every duration case the value is at least 0 (given
the scan invariants that measured step times are nonnegative and the linear
index never exceeds the total point count). -/
theorem eta_spec (ts : List (Option ℚ)) (i t : Nat)
    (hpos : ∀ x ∈ ts.filterMap id, 0 ≤ x) (hle : i ≤ t) :
    get_estimated_time_remaining none i t = ETA.notAvailable ∧
    (ts.filterMap id = [] →
      get_estimated_time_remaining (some ts) i t = ETA.dur 0) ∧
    (ts.filterMap id ≠ [] →
      get_estimated_time_remaining (some ts) i t =
        ETA.dur (((t : ℚ) - (i : ℚ)) *
          ((ts.filterMap id).sum / ((ts.filterMap id).length : ℚ)))) ∧
    (∀ q, get_estimated_time_remaining (some ts) i t = ETA.dur q → 0 ≤ q) := by
  refine ⟨rfl, ?_, ?_, ?_⟩
  · intro h
    simp [get_estimated_time_remaining, h]
  · intro h
    simp [get_estimated_time_remaining, List.length_eq_zero.not.mpr h]
  · intro q hq
    simp only [get_estimated_time_remaining] at hq
    split_ifs at hq with h
    · simp only [ETA.dur.injEq] at hq
      subst hq
      norm_num
    · simp only [ETA.dur.injEq] at hq
      subst hq
      have h1 : (0 : ℚ) ≤ (t : ℚ) - (i : ℚ) := by
        rw [sub_nonneg]
        exact_mod_cast hle
      have h2 : (0 : ℚ) ≤ (ts.filterMap id).sum := List.sum_nonneg hpos
      exact mul_nonneg h1 (div_nonneg h2 (by positivity))

/-- Witness for C5: with step times `[2.0, NaN, 4.0]`, one completed point
out of four, the estimate is `(4 - 1) * 3 = 9`, and it is nonnegative; with
no finite entry the estimate is 0; before any scan the sentinel is
returned. -/
theorem eta_spec_witness :
    get_estimated_time_remaining none 1 4 = ETA.notAvailable ∧
    get_estimated_time_remaining (some [none, none]) 0 4 = ETA.dur 0 ∧
    get_estimated_time_remaining (some [some 2, none, some 4]) 1 4 = ETA.dur 9 ∧
    (0 : ℚ) ≤ 9 := by
  obtain ⟨h1, _, h3, h4⟩ :=
    eta_spec [some 2, none, some 4] 1 4
      (by
        intro x hx
        simp only [List.filterMap_cons, List.filterMap_nil, id, List.mem_cons,
          List.not_mem_nil, or_false] at hx
        rcases hx with rfl | rfl <;> norm_num)
      (by norm_num)
  refine ⟨h1, ?_, ?_, by norm_num⟩
  · exact (eta_spec [none, none] 0 4 (by simp) (by norm_num)).2.1 (by simp)
  · rw [h3 (by simp)]
    simp only [List.filterMap_cons, List.filterMap_nil, id, ETA.dur.injEq,
      List.sum_cons, List.sum_nil, List.length_cons, List.length_nil]
    norm_num

/-! ### C8 -/

theorem resize_canon {α : Type} (l : List α) (x : α) (n m : Nat)
    (hm : l.length = m) :
    (if m < n then l ++ List.replicate (n - l.length) x else l.take n) =
      truncOrPad n x l := by
  unfold truncOrPad
  split_ifs with h
  · rw [List.take_of_length_le (le_of_lt (hm ▸ h))]
  · rw [hm, Nat.sub_eq_zero_of_le (le_of_not_lt h), List.replicate_zero,
      List.append_nil]

theorem truncOrPad_length {α : Type} (l : List α) (x : α) (n : Nat) :
    (truncOrPad n x l).length = n := by
  simp only [truncOrPad, List.length_append, List.length_take,
    List.length_replicate]
  omega

/-- C8: setting `num_axes` to `n` (from any state satisfying the class
invariant that the five per-axis sequences share one length) leaves `axes`,
`axes_names`, `size`, `step` and `init` each of length exactly `n`, each
equal to its truncate-or-pad canonical form: the leading `min n old`
entries are the old entries unchanged and in order (so growing preserves
every existing entry and shrinking truncates without reordering), and the
`n - old` new trailing entries are zero (empty-string) filled.  The resize
is never partial: all five sequences are transformed alike. -/
theorem num_axes_resize (s : GSState) (n : Nat)
    (h1 : s.axes_names.length = s.axes.length)
    (h2 : s.size.length = s.axes.length)
    (h3 : s.step.length = s.axes.length)
    (h4 : s.init.length = s.axes.length) :
    (update_axes s n).num_axes = n ∧
    (update_axes s n).axes = truncOrPad n "" s.axes ∧
    (update_axes s n).axes_names = truncOrPad n "" s.axes_names ∧
    (update_axes s n).size = truncOrPad n 0 s.size ∧
    (update_axes s n).step = truncOrPad n 0 s.step ∧
    (update_axes s n).init = truncOrPad n 0 s.init ∧
    (update_axes s n).axes.length = n ∧
    (update_axes s n).axes_names.length = n ∧
    (update_axes s n).size.length = n ∧
    (update_axes s n).step.length = n ∧
    (update_axes s n).init.length = n := by
  have ca := resize_canon s.axes "" n s.axes.length rfl
  have cb := resize_canon s.axes_names "" n s.axes.length h1
  have cc := resize_canon s.size 0 n s.axes.length h2
  have cd := resize_canon s.step 0 n s.axes.length h3
  have ce := resize_canon s.init 0 n s.axes.length h4
  have hu : update_axes s n =
      { s with
        num_axes := n
        axes := truncOrPad n "" s.axes
        axes_names := truncOrPad n "" s.axes_names
        size := truncOrPad n 0 s.size
        step := truncOrPad n 0 s.step
        init := truncOrPad n 0 s.init } := by
    unfold update_axes
    split_ifs with h
    · rw [if_pos h] at ca cb cc cd ce
      rw [ca, cb, cc, cd, ce]
    · rw [if_neg h] at ca cb cc cd ce
      rw [ca, cb, cc, cd, ce]
  rw [hu]
  refine ⟨rfl, rfl, rfl, rfl, rfl, rfl, ?_, ?_, ?_, ?_, ?_⟩ <;>
    apply truncOrPad_length

/-- Witness for C8: growing the concrete two-axis state to four axes
preserves the two existing sizes and zero-fills two new ones; shrinking to
one axis truncates. -/
theorem num_axes_resize_witness :
    (update_axes sampleState 4).size = [1, 1, 0, 0] ∧
    (update_axes sampleState 4).size.length = 4 ∧
    (update_axes sampleState 1).size = [1] := by
  obtain ⟨-, -, -, c4, -, -, -, -, l4, -, -⟩ :=
    num_axes_resize sampleState 4 rfl rfl rfl rfl
  obtain ⟨-, -, -, c1, -, -⟩ := num_axes_resize sampleState 1 rfl rfl rfl rfl
  refine ⟨?_, l4, ?_⟩
  · rw [c4]
    rfl
  · rw [c1]
    rfl

/-! ### Grid-builder lemmas -/

theorem buildAxis_zero (s s0 : ℚ) :
    buildAxis s 0 s0 = Except.error "ZeroDivisionError: division by zero" := by
  unfold buildAxis arange
  rw [if_pos rfl]

theorem buildAxis_ok (s st s0 : ℚ) (hst : st ≠ 0) :
    buildAxis s st s0 =
      Except.ok ((List.range (⌈(s + st / 2) / st⌉).toNat).map
        (fun (i : Nat) => (i : ℚ) * st - s / 2 + s0)) := by
  unfold buildAxis arange
  rw [if_neg hst]
  simp only [sub_zero, List.map_map]
  refine congrArg Except.ok (List.map_congr_left ?_)
  intro a _
  simp only [Function.comp_apply, zero_add]

theorem ceil_points (st : ℚ) (hst : 0 < st) (m : ℕ) :
    (⌈((m : ℚ) * st + st / 2) / st⌉).toNat = m + 1 := by
  have hdiv : ((m : ℚ) * st + st / 2) / st = (1 / 2 : ℚ) + (m : ℕ) := by
    field_simp
    ring
  have hc : ⌈(1 / 2 : ℚ)⌉ = 1 := by
    rw [Int.ceil_eq_iff]
    norm_num
  rw [hdiv, Int.ceil_add_nat, hc]
  omega

theorem zip3Q_mem (s1 s2 s3 : List ℚ) (i : Nat)
    (h1 : i < s1.length) (h2 : i < s2.length) (h3 : i < s3.length) :
    (s1.getD i 0, s2.getD i 0, s3.getD i 0) ∈ zip3Q s1 s2 s3 := by
  induction s1 generalizing s2 s3 i with
  | nil => simp at h1
  | cons a t ih =>
    cases s2 with
    | nil => simp at h2
    | cons b t2 =>
      cases s3 with
      | nil => simp at h3
      | cons c t3 =>
        cases i with
        | zero => simp [zip3Q]
        | succ j =>
          simp only [zip3Q, List.getD_cons_succ]
          exact List.mem_cons_of_mem _
            (ih t2 t3 j (by simpa using h1) (by simpa using h2) (by simpa using h3))

theorem zip3Q_length (s1 s2 s3 : List ℚ)
    (h2 : s2.length = s1.length) (h3 : s3.length = s1.length) :
    (zip3Q s1 s2 s3).length = s1.length := by
  induction s1 generalizing s2 s3 with
  | nil =>
    cases s2 <;> cases s3 <;> simp_all [zip3Q]
  | cons a t ih =>
    cases s2 with
    | nil => simp at h2
    | cons b t2 =>
      cases s3 with
      | nil => simp at h3
      | cons c t3 =>
        simp only [zip3Q, List.length_cons]
        rw [ih t2 t3 (by simpa using h2) (by simpa using h3)]

theorem buildAxes_error_of_zero_step (cs ct ci : ℚ) (hct : ct ≠ 0)
    (specs : List (ℚ × ℚ × ℚ)) (hx : ∃ x ∈ specs, x.2.1 = 0) :
    buildAxes cs ct ci specs =
      Except.error "ZeroDivisionError: division by zero" := by
  induction specs with
  | nil => simp at hx
  | cons hd tl ih =>
    obtain ⟨x, hmem, hx0⟩ := hx
    obtain ⟨s, st, s0⟩ := hd
    by_cases hst : st = 0
    · subst hst
      simp only [buildAxes, zero_mul, buildAxis_zero]
    · rcases List.mem_cons.mp hmem with rfl | hmem2
      · exact absurd hx0 hst
      · simp only [buildAxes, buildAxis_ok _ _ _ (mul_ne_zero hst hct)]
        rw [ih ⟨x, hmem2, hx0⟩]

theorem buildAxes_ok_of_steps (cs ct ci : ℚ) (hct : ct ≠ 0)
    (specs : List (ℚ × ℚ × ℚ)) (h : ∀ x ∈ specs, x.2.1 ≠ 0) :
    ∃ axs, buildAxes cs ct ci specs = Except.ok axs ∧
      axs.length = specs.length := by
  induction specs with
  | nil => exact ⟨[], rfl, rfl⟩
  | cons hd tl ih =>
    obtain ⟨s, st, s0⟩ := hd
    have hst : st ≠ 0 := h (s, st, s0) (List.mem_cons_self _ _)
    obtain ⟨axs, hok, hlen⟩ := ih (fun x hx => h x (List.mem_cons_of_mem _ hx))
    refine ⟨(List.range (⌈(s * cs + st * ct / 2) / (st * ct)⌉).toNat).map
      (fun (i : Nat) => (i : ℚ) * (st * ct) - s * cs / 2 + s0 * ci) :: axs, ?_,
      by simp [hlen]⟩
    simp only [buildAxes, buildAxis_ok _ _ _ (mul_ne_zero hst hct), hok]

/-! ### C4 -/

/-- C4: for an axis specification with positive size and zero step, building
the grid raises synchronously (numpy's `ZeroDivisionError` from the
zero-step `arange`, the malformed-configuration failure of the axis grid
builder), and a `scan_grid` call on such a configuration propagates that
error with an empty event trace: no stage motion has occurred. -/
theorem zero_step_invalid_grid (axes : List String) (size step init : List ℚ)
    (su stu iu : String) (cs ct ci : ℚ)
    (hsu : unit_conversion su = some cs) (hstu : unit_conversion stu = some ct)
    (hiu : unit_conversion iu = some ci)
    (h1 : size.length = axes.length) (h2 : step.length = axes.length)
    (h3 : init.length = axes.length) (i : Nat) (hi : i < axes.length)
    (hsz : 0 < size.getD i 0) (hst : step.getD i 0 = 0) :
    init_grid axes size step init su stu iu =
      Except.error "ZeroDivisionError: division by zero" ∧
    ∀ sF ab, scan_grid axes size step init su stu iu sF ab =
      Except.error ("ZeroDivisionError: division by zero",
        { trace := [], status := "inactive", index := 0 }) := by
  have hct : ct ≠ 0 := unit_conversion_ne_zero hstu
  have hmem : (size.getD i 0, step.getD i 0, init.getD i 0) ∈
      zip3Q size step init :=
    zip3Q_mem _ _ _ i (by omega) (by omega) (by omega)
  have htake : (zip3Q size step init).take axes.length = zip3Q size step init := by
    apply List.take_of_length_le
    rw [zip3Q_length size step init (by omega) (by omega), h1]
  have herr : init_grid axes size step init su stu iu =
      Except.error "ZeroDivisionError: division by zero" := by
    unfold init_grid
    rw [hsu, hstu, hiu]
    dsimp only
    rw [htake, buildAxes_error_of_zero_step cs ct ci hct _ ⟨_, hmem, hst⟩]
  refine ⟨herr, fun sF ab => ?_⟩
  unfold scan_grid
  rw [herr]

/-- Witness for C4: a two-axis configuration whose first axis has
`size = 1, step = 0`. -/
theorem zero_step_invalid_grid_witness :
    init_grid ["x", "y"] [1, 1] [0, 1] [0, 0] "um" "um" "um" =
      Except.error "ZeroDivisionError: division by zero" ∧
    scan_grid ["x", "y"] [1, 1] [0, 1] [0, 0] "um" "um" "um"
        (fun _ => false) none =
      Except.error ("ZeroDivisionError: division by zero",
        { trace := [], status := "inactive", index := 0 }) := by
  obtain ⟨h, hscan⟩ :=
    zero_step_invalid_grid ["x", "y"] [1, 1] [0, 1] [0, 0] "um" "um" "um"
      (1 / 1000000) (1 / 1000000) (1 / 1000000)
      (by simp [unit_conversion]) (by simp [unit_conversion])
      (by simp [unit_conversion]) rfl rfl rfl 0 (by norm_num)
      (by norm_num) rfl
  exact ⟨h, hscan (fun _ => false) none⟩

/-! ### C7 -/

/-- C7: for a positive step dividing the size exactly (`size = m * step`),
the built axis is the `m + 1` coordinates `-size/2 + center + i*step`
(`i = 0..m`): the half-step tolerance added to the `arange` upper bound
keeps the final point `+size/2 + center`, which is the image of `i = m`.
Concretely, the axis for `size=1.0, step=0.05, center=0.0` at `um` has
exactly `round(1.0/0.05) + 1 = 21` points, symmetric about 0. -/
theorem grid_sizing (s st s0 : ℚ) (hst : 0 < st) (m : ℕ)
    (hm : s = (m : ℚ) * st) :
    buildAxis s st s0 =
      Except.ok ((List.range (m + 1)).map
        (fun (i : Nat) => (i : ℚ) * st - s / 2 + s0)) ∧
    (m : ℚ) * st - s / 2 + s0 = s / 2 + s0 ∧
    ∃ ax, init_grid ["x"] [1] [1 / 20] [0] "um" "um" "um" =
        Except.ok { scan_axes := [ax], grid_shape := [21], total_points := 21 } ∧
      ax.length = 21 ∧ ∀ i, i ≤ 20 → ax.getD i 0 + ax.getD (20 - i) 0 = 0 := by
  refine ⟨?_, by rw [hm]; ring, ?_⟩
  · rw [buildAxis_ok s st s0 (ne_of_gt hst), hm, ceil_points st hst m]
  · have hc : unit_conversion "um" = some (1 / 1000000) := by
      simp [unit_conversion]
    have hstep : (0 : ℚ) < 1 / 20 * (1 / 1000000) := by norm_num
    have h21 : (⌈((1 : ℚ) * (1 / 1000000) + 1 / 20 * (1 / 1000000) / 2) /
        (1 / 20 * (1 / 1000000))⌉).toNat = 21 := by
      have h20 := ceil_points (1 / 20 * (1 / 1000000)) hstep 20
      rw [show ((20 : ℕ) : ℚ) * (1 / 20 * (1 / 1000000)) =
        (1 : ℚ) * (1 / 1000000) by norm_num] at h20
      exact h20
    refine ⟨(List.range 21).map
      (fun (i : Nat) => (i : ℚ) * (1 / 20 * (1 / 1000000)) -
        1 * (1 / 1000000) / 2 + 0 * (1 / 1000000)), ?_, by simp, ?_⟩
    · unfold init_grid
      rw [hc]
      dsimp only
      rw [show (zip3Q [1] [1 / 20] [0]).take (List.length ["x"]) =
        [((1 : ℚ), (1 / 20 : ℚ), (0 : ℚ))] from rfl]
      unfold buildAxes
      rw [buildAxis_ok _ _ _ (ne_of_gt hstep), h21]
      unfold buildAxes
      dsimp only
      rw [show List.map List.length [(List.range 21).map
        (fun (i : Nat) => (i : ℚ) * (1 / 20 * (1 / 1000000)) -
          1 * (1 / 1000000) / 2 + 0 * (1 / 1000000))] = [21] from by simp]
      rfl
    · intro i hi
      have hget : ∀ j, j < 21 → ((List.range 21).map
          (fun (i : Nat) => (i : ℚ) * (1 / 20 * (1 / 1000000)) -
            1 * (1 / 1000000) / 2 + 0 * (1 / 1000000))).getD j 0 =
          (j : ℚ) * (1 / 20 * (1 / 1000000)) -
            1 * (1 / 1000000) / 2 + 0 * (1 / 1000000) := by
        intro j hj
        rw [List.getD_eq_getElem?_getD, List.getElem?_map,
          List.getElem?_range hj]
        rfl
      rw [hget i (by omega), hget (20 - i) (by omega)]
      have hcast : ((20 - i : ℕ) : ℚ) = 20 - (i : ℚ) := by
        push_cast [Nat.cast_sub hi]
        ring
      rw [hcast]
      ring_nf

/-- Witness for C7 at `size = 1, step = 1/20, center = 0` (base units),
i.e. `m = 20`: the axis is the 21 points `i/20 - 1/2`. -/
theorem grid_sizing_witness :
    buildAxis 1 (1 / 20) 0 =
      Except.ok ((List.range 21).map
        (fun (i : Nat) => (i : ℚ) * (1 / 20) - 1 / 2 + 0)) ∧
    (20 : ℚ) * (1 / 20) - 1 / 2 + 0 = 1 / 2 + 0 := by
  obtain ⟨h1, h2, -⟩ :=
    grid_sizing 1 (1 / 20) 0 (by norm_num) 20 (by norm_num)
  exact ⟨h1, h2⟩

/-! ### Scan-loop lemmas: exact traces of the 2-axis no-abort path -/

theorem jOrder_length (a : Nat) (r : Bool) : (jOrder a r).length = a := by
  cases r <;> simp [jOrder]

theorem measureEvents_append (t1 t2 : List Event) :
    measureEvents (t1 ++ t2) = measureEvents t1 ++ measureEvents t2 := by
  simp [measureEvents, List.filterMap_append]

theorem measureEvents_midBlock (ax1 : String) (sa1 : List ℚ) (k : Nat)
    (jl : List Nat) :
    measureEvents (midBlock ax1 sa1 k jl) = jl.map (fun j => [j, k]) := by
  induction jl with
  | nil => rfl
  | cons j rest ih =>
    simp only [midBlock, List.flatMap_cons] at ih ⊢
    rw [measureEvents_append, ih]
    rfl

theorem measureEvents_outerBlock2 (ax0 ax1 : String) (sa0 sa1 : List ℚ)
    (a nl : Nat) (r : Bool) (kl : List Nat) :
    measureEvents (outerBlock2 ax0 ax1 sa0 sa1 a nl r kl) = snakeGo a r kl := by
  induction kl generalizing r with
  | nil => rfl
  | cons k rest ih =>
    have hskip : measureEvents (outerBlock2 ax0 ax1 sa0 sa1 a nl r (k :: rest)) =
        measureEvents (midBlock ax1 sa1 k (jOrder a (!r)) ++
          outerBlock2 ax0 ax1 sa0 sa1 a nl (!r) rest) := rfl
    rw [hskip, measureEvents_append, measureEvents_midBlock, ih]
    rfl

theorem scan_mid_two (ax1 ax2 : String) (sa1 sa2 : List ℚ) (sh2 k : Nat)
    (jl : List Nat) (st : LoopSt) :
    scan_mid (fun _ => false) none 2 ax1 ax2 sa1 sa2 sh2 k jl st =
      Except.ok { st with
        trace := st.trace ++ midBlock ax1 sa1 k jl
        idx := st.idx + jl.length } := by
  induction jl generalizing st with
  | nil => simp [scan_mid, midBlock]
  | cons j rest ih =>
    simp only [scan_mid, readAbort, Bool.false_eq_true, if_false]
    norm_num
    rw [ih]
    obtain ⟨tr, stt, ix, r2, r3⟩ := st
    simp only [Except.ok.injEq, LoopSt.mk.injEq, midBlock, List.flatMap_cons,
      List.append_assoc, List.cons_append, List.nil_append, List.length_cons,
      true_and, and_true]
    constructor
    · rw [List.getD_eq_getElem?_getD]
    · omega

theorem scan_outer_two (ax0 ax1 ax2 : String) (sa0 sa1 sa2 : List ℚ)
    (a sh2 nl : Nat) (kl : List Nat) (st : LoopSt) :
    ∃ st2, scan_outer (fun _ => false) none 2 ax0 ax1 ax2 sa0 sa1 sa2
        a sh2 nl kl st = Except.ok st2 ∧
      st2.trace = st.trace ++ outerBlock2 ax0 ax1 sa0 sa1 a nl st.rev2 kl ∧
      st2.idx = st.idx + a * kl.length := by
  induction kl generalizing st with
  | nil => exact ⟨st, by simp [scan_outer, outerBlock2]⟩
  | cons k rest ih =>
    simp only [scan_outer, readAbort, Bool.false_eq_true, if_false]
    rw [scan_mid_two]
    obtain ⟨st2, hrun, htr, hidx⟩ := ih
      { st with
        trace := st.trace ++ [Event.driftCompensation,
          Event.statusSet (layerStatus k nl), Event.move ax0 (sa0.getD k 0)] ++
          midBlock ax1 sa1 k (if !st.rev2 then (List.range a).reverse
            else List.range a)
        status := layerStatus k nl
        rev2 := !st.rev2
        idx := st.idx + (if !st.rev2 then (List.range a).reverse
          else List.range a).length }
    dsimp only at htr hidx
    refine ⟨st2, hrun, ?_, ?_⟩
    · rw [htr]
      show _ = st.trace ++ outerBlock2 ax0 ax1 sa0 sa1 a nl st.rev2 (k :: rest)
      simp only [outerBlock2, jOrder, List.append_assoc, List.cons_append,
        List.nil_append]
    · rw [hidx]
      rw [show (if !st.rev2 then (List.range a).reverse else List.range a).length
        = a from jOrder_length a (!st.rev2)]
      simp only [List.length_cons]
      ring

theorem grid_result_shape (axA axB : List ℚ) (a b : Nat)
    (hA : axA.length = a) (hB : axB.length = b) :
    (Except.ok
      { scan_axes := [axA, axB]
        grid_shape := List.map List.length [axA, axB]
        total_points := (List.map List.length [axA, axB]).prod } :
      Except String GridResult) =
    Except.ok
      { scan_axes := [axA, axB]
        grid_shape := [a, b]
        total_points := a * b } := by
  subst hA hB
  simp [List.prod_cons, List.prod_nil]

/-- The number of points of an axis built from `size = n - 1`, `step = 1`
(at `um`, so after conversion `size = (n-1)·c`, `step = c`) is `n`. -/
theorem count_points_um (n : Nat) (hn : 1 ≤ n) :
    (⌈(((n : ℚ) - 1) * (1 / 1000000) + 1 * (1 / 1000000) / 2) /
      (1 * (1 / 1000000))⌉).toNat = n := by
  have hcast : ((n : ℚ) - 1) * (1 / 1000000) =
      ((n - 1 : ℕ) : ℚ) * (1 * (1 / 1000000)) := by
    push_cast [hn]
    ring
  rw [hcast, ceil_points (1 * (1 / 1000000)) (by norm_num) (n - 1)]
  omega

/-- Evaluation of `init_grid` for a two-axis grid with `a` inner and `b`
outer points (`size = count - 1`, `step = 1`, at `um`). -/
theorem init_grid_two (a b : Nat) (ha : 1 ≤ a) (hb : 1 ≤ b) (i0 i1 : ℚ) :
    init_grid ["x", "y"] [(a : ℚ) - 1, (b : ℚ) - 1] [1, 1] [i0, i1]
      "um" "um" "um" =
      Except.ok
        { scan_axes :=
            [(List.range a).map (fun (i : Nat) => (i : ℚ) * (1 * (1 / 1000000)) -
                ((a : ℚ) - 1) * (1 / 1000000) / 2 + i0 * (1 / 1000000)),
              (List.range b).map (fun (i : Nat) => (i : ℚ) * (1 * (1 / 1000000)) -
                ((b : ℚ) - 1) * (1 / 1000000) / 2 + i1 * (1 / 1000000))]
          grid_shape := [a, b]
          total_points := a * b } := by
  unfold init_grid
  rw [show unit_conversion "um" = some (1 / 1000000) from by simp [unit_conversion]]
  dsimp only
  rw [show (zip3Q [(a : ℚ) - 1, (b : ℚ) - 1] [1, 1] [i0, i1]).take
      (List.length ["x", "y"]) =
    [((a : ℚ) - 1, (1 : ℚ), i0), ((b : ℚ) - 1, (1 : ℚ), i1)] from rfl]
  unfold buildAxes
  rw [buildAxis_ok _ _ _ (by norm_num : (1 : ℚ) * (1 / 1000000) ≠ 0),
    count_points_um a ha]
  unfold buildAxes
  rw [buildAxis_ok _ _ _ (by norm_num : (1 : ℚ) * (1 / 1000000) ≠ 0),
    count_points_um b hb]
  unfold buildAxes
  dsimp only
  exact grid_result_shape _ _ a b (by simp) (by simp)

/-- Full run of a 2-axis grid scan without abort and with a per-point
function that never raises: the scan succeeds, measures the boustrophedon
sequence, ends in status `'scan complete'` and counts all points. -/
theorem scan_grid_two_run (a b : Nat) (ha : 1 ≤ a) (hb : 1 ≤ b) (i0 i1 : ℚ) :
    ∃ out, scan_grid ["x", "y"] [(a : ℚ) - 1, (b : ℚ) - 1] [1, 1] [i0, i1]
        "um" "um" "um" (fun _ => false) none = Except.ok out ∧
      measureEvents out.trace = snakeGo a false (List.range b) ∧
      out.status = "scan complete" ∧ out.index = a * b := by
  unfold scan_grid
  rw [init_grid_two a b ha hb i0 i1]
  dsimp only
  simp only [List.length_cons, List.length_nil, List.reverse_cons,
    List.reverse_nil, List.nil_append, List.cons_append, List.getD_cons_zero,
    List.getD_cons_succ, List.getD_nil, Nat.reduceAdd, reduceIte]
  obtain ⟨st2, hrun, htr, hidx⟩ :=
    scan_outer_two "y" "x" "" ((List.range b).map
        (fun (i : Nat) => (i : ℚ) * (1 * (1 / 1000000)) -
          ((b : ℚ) - 1) * (1 / 1000000) / 2 + i1 * (1 / 1000000)))
      ((List.range a).map (fun (i : Nat) => (i : ℚ) * (1 * (1 / 1000000)) -
          ((a : ℚ) - 1) * (1 / 1000000) / 2 + i0 * (1 / 1000000))) [] a 0 b
      (List.range b)
      { trace := [Event.openScan, Event.statusSet "acquiring data"]
        status := "acquiring data"
        idx := 0
        rev2 := false
        rev3 := false }
  dsimp only at htr hidx
  rw [hrun]
  dsimp only
  refine ⟨_, rfl, ?_, rfl, by rw [hidx]; simp⟩
  rw [measureEvents_append, measureEvents_append, htr, measureEvents_append,
    measureEvents_outerBlock2]
  have h1 : measureEvents [Event.openScan, Event.statusSet "acquiring data"] =
    [] := rfl
  have h2 : measureEvents ((List.zip ["x", "y"] [i0, i1]).map
      (fun p => Event.move p.1 p.2)) = [] := rfl
  have h3 : measureEvents [Event.analyseScan, Event.closeScan] = [] := rfl
  rw [h1, h2, h3]
  simp

/-! ### C2 -/

/-- Counterexample to C2 as stated: on the (3,2) grid the inner indices
visited while the outer index is 0 are `[2,1,0]` (and `[0,1,2]` while it is
1), not `[0,1,2]` followed by `[2,1,0]` — the in-place reversal of
`pnts[-2]` happens before the first inner pass, so the first layer is
already the reversed one. -/
theorem snake_order_counterexample :
    (∃ out, scan_grid ["x", "y"] [2, 1] [1, 1] [0, 0] "um" "um" "um"
        (fun _ => false) none = Except.ok out ∧
      measureEvents out.trace =
        [[2, 0], [1, 0], [0, 0], [0, 1], [1, 1], [2, 1]]) ∧
    ([[2, 0], [1, 0], [0, 0], [0, 1], [1, 1], [2, 1]] : List (List Nat)) ≠
      [[0, 0], [1, 0], [2, 0], [2, 1], [1, 1], [0, 1]] := by
  refine ⟨?_, by decide⟩
  obtain ⟨out, hrun, hmeas, -, -⟩ :=
    scan_grid_two_run 3 2 (by norm_num) (by norm_num) 0 0
  rw [show ((3 : ℕ) : ℚ) - 1 = 2 by norm_num,
    show ((2 : ℕ) : ℚ) - 1 = 1 by norm_num] at hrun
  refine ⟨out, hrun, ?_⟩
  rw [hmeas]
  decide

/-- C2 (amended): every 2-axis grid scan traverses in boustrophedon order
with the direction of the inner axis reversing at each advance of the outer
axis, but the first layer runs in reversed order: for the (3,2) grid the
inner indices are `[2,1,0]` while the outer index is 0 and `[0,1,2]` while
it is 1. -/
theorem snake_order (a b : Nat) (ha : 1 ≤ a) (hb : 1 ≤ b) (i0 i1 : ℚ) :
    ∃ out, scan_grid ["x", "y"] [(a : ℚ) - 1, (b : ℚ) - 1] [1, 1] [i0, i1]
        "um" "um" "um" (fun _ => false) none = Except.ok out ∧
      measureEvents out.trace = boustroOrder a b := by
  obtain ⟨out, hrun, hmeas, -, -⟩ := scan_grid_two_run a b ha hb i0 i1
  exact ⟨out, hrun, hmeas⟩

/-- Witness for C2 (amended) on the (3,2) grid: the full boustrophedon
measurement order, first layer reversed. -/
theorem snake_order_witness :
    (∃ out, scan_grid ["x", "y"] [((3 : ℕ) : ℚ) - 1, ((2 : ℕ) : ℚ) - 1]
        [1, 1] [0, 0] "um" "um" "um" (fun _ => false) none = Except.ok out ∧
      measureEvents out.trace = boustroOrder 3 2) ∧
    boustroOrder 3 2 = [[2, 0], [1, 0], [0, 0], [0, 1], [1, 1], [2, 1]] :=
  ⟨snake_order 3 2 (by norm_num) (by norm_num) 0 0, by decide⟩

/-! ### Scan-loop lemmas: the 2-axis path under an abort schedule -/

theorem scan_mid_two_abort (ab : Option Nat) (ax1 ax2 : String)
    (sa1 sa2 : List ℚ) (sh2 k : Nat) (jl : List Nat) (st : LoopSt) :
    ∃ st2, scan_mid (fun _ => false) ab 2 ax1 ax2 sa1 sa2 sh2 k jl st =
        Except.ok st2 ∧
      ∃ d, st2.trace = st.trace ++ d ∧
        st2.idx = st.idx + (measureEvents d).length ∧
        ∀ u, ab = some u → st.idx ≤ u → st2.idx ≤ u := by
  induction jl generalizing st with
  | nil =>
    exact ⟨st, by simp [scan_mid], [], by simp, by simp [measureEvents],
      fun u _ h => h⟩
  | cons j rest ih =>
    by_cases habort : readAbort ab st.idx = true
    · refine ⟨st, ?_, [], by simp, by simp [measureEvents], fun u _ h => h⟩
      simp [scan_mid, habort]
    · have step : scan_mid (fun _ => false) ab 2 ax1 ax2 sa1 sa2 sh2 k
          (j :: rest) st =
          scan_mid (fun _ => false) ab 2 ax1 ax2 sa1 sa2 sh2 k rest
            { st with
              trace := (st.trace ++ [Event.move ax1 (sa1.getD j 0)]) ++
                [Event.measure [j, k]]
              idx := st.idx + 1 } := by
        simp only [scan_mid]
        rw [if_neg habort]
        norm_num
      rw [step]
      obtain ⟨st2, hrun, d, htr, hidx, hbound⟩ := ih
        { st with
          trace := (st.trace ++ [Event.move ax1 (sa1.getD j 0)]) ++
            [Event.measure [j, k]]
          idx := st.idx + 1 }
      dsimp only at htr hidx hbound
      have hlt : ∀ u, ab = some u → st.idx < u := by
        intro u hu
        subst hu
        simp only [readAbort, decide_eq_true_eq] at habort
        omega
      refine ⟨st2, hrun,
        [Event.move ax1 (sa1.getD j 0), Event.measure [j, k]] ++ d, ?_, ?_, ?_⟩
      · rw [htr]
        simp [List.append_assoc]
      · rw [hidx, measureEvents_append]
        have : measureEvents [Event.move ax1 (sa1.getD j 0),
          Event.measure [j, k]] = [[j, k]] := rfl
        rw [this]
        simp only [List.length_append, List.length_cons, List.length_nil]
        omega
      · intro u hu hle
        exact hbound u hu (by have := hlt u hu; omega)

theorem scan_outer_two_abort (ab : Option Nat) (ax0 ax1 ax2 : String)
    (sa0 sa1 sa2 : List ℚ) (a sh2 nl : Nat) (kl : List Nat) (st : LoopSt) :
    ∃ st2, scan_outer (fun _ => false) ab 2 ax0 ax1 ax2 sa0 sa1 sa2
        a sh2 nl kl st = Except.ok st2 ∧
      ∃ d, st2.trace = st.trace ++ d ∧
        st2.idx = st.idx + (measureEvents d).length ∧
        ∀ u, ab = some u → st.idx ≤ u → st2.idx ≤ u := by
  induction kl generalizing st with
  | nil =>
    exact ⟨st, by simp [scan_outer], [], by simp, by simp [measureEvents],
      fun u _ h => h⟩
  | cons k rest ih =>
    by_cases habort : readAbort ab st.idx = true
    · refine ⟨st, ?_, [], by simp, by simp [measureEvents], fun u _ h => h⟩
      simp [scan_outer, habort]
    · obtain ⟨stM, hmid, dM, htrM, hidxM, hboundM⟩ :=
        scan_mid_two_abort ab ax1 ax2 sa1 sa2 sh2 k
          (if !st.rev2 then (List.range a).reverse else List.range a)
          { st with
            trace := st.trace ++ [Event.driftCompensation,
              Event.statusSet (layerStatus k nl), Event.move ax0 (sa0.getD k 0)]
            status := layerStatus k nl
            rev2 := !st.rev2 }
      obtain ⟨st2, hrun, d, htr, hidx, hbound⟩ := ih stM
      dsimp only at htrM hidxM hboundM
      have step : scan_outer (fun _ => false) ab 2 ax0 ax1 ax2 sa0 sa1 sa2
          a sh2 nl (k :: rest) st = Except.ok st2 := by
        simp only [scan_outer]
        rw [if_neg habort, hmid]
        exact hrun
      refine ⟨st2, step,
        [Event.driftCompensation, Event.statusSet (layerStatus k nl),
          Event.move ax0 (sa0.getD k 0)] ++ dM ++ d, ?_, ?_, ?_⟩
      · rw [htr, htrM]
        simp [List.append_assoc]
      · rw [hidx, hidxM, measureEvents_append, measureEvents_append]
        have : measureEvents [Event.driftCompensation,
          Event.statusSet (layerStatus k nl),
          Event.move ax0 (sa0.getD k 0)] = [] := rfl
        rw [this]
        simp only [List.length_append, List.nil_append]
        omega
      · intro u hu hle
        exact hbound u hu (hboundM u hu hle)

/-! ### C3 -/

/-- C3: on a 2-axis scan with an abort requested once `t` points have
completed, the scan still returns normally: at most `t` measurements occur
(none after the request beyond the current grid point), and the trace ends
by moving each axis back to its configured `init` position, running
`analyse_scan` and `close_scan`, and the final status is `'scan complete'`
rather than an exception. -/
theorem abort_honored (a b t : Nat) (ha : 1 ≤ a) (hb : 1 ≤ b) (i0 i1 : ℚ) :
    ∃ out, scan_grid ["x", "y"] [(a : ℚ) - 1, (b : ℚ) - 1] [1, 1] [i0, i1]
        "um" "um" "um" (fun _ => false) (some t) = Except.ok out ∧
      (measureEvents out.trace).length ≤ t ∧
      (∃ pre, out.trace = pre ++ [Event.move "x" i0, Event.move "y" i1,
        Event.analyseScan, Event.closeScan]) ∧
      out.status = "scan complete" := by
  unfold scan_grid
  rw [init_grid_two a b ha hb i0 i1]
  dsimp only
  simp only [List.length_cons, List.length_nil, List.reverse_cons,
    List.reverse_nil, List.nil_append, List.cons_append, List.getD_cons_zero,
    List.getD_cons_succ, List.getD_nil, Nat.reduceAdd, reduceIte]
  obtain ⟨st2, hrun, d, htr, hidx, hbound⟩ :=
    scan_outer_two_abort (some t) "y" "x" "" ((List.range b).map
        (fun (i : Nat) => (i : ℚ) * (1 * (1 / 1000000)) -
          ((b : ℚ) - 1) * (1 / 1000000) / 2 + i1 * (1 / 1000000)))
      ((List.range a).map (fun (i : Nat) => (i : ℚ) * (1 * (1 / 1000000)) -
          ((a : ℚ) - 1) * (1 / 1000000) / 2 + i0 * (1 / 1000000))) [] a 0 b
      (List.range b)
      { trace := [Event.openScan, Event.statusSet "acquiring data"]
        status := "acquiring data"
        idx := 0
        rev2 := false
        rev3 := false }
  dsimp only at htr hidx hbound
  rw [hrun]
  dsimp only
  refine ⟨_, rfl, ?_, ⟨st2.trace, by simp⟩, rfl⟩
  have h1 : measureEvents [Event.openScan, Event.statusSet "acquiring data"] =
    [] := rfl
  have h2 : measureEvents ((List.zip ["x", "y"] [i0, i1]).map
      (fun p => Event.move p.1 p.2)) = [] := rfl
  have h3 : measureEvents [Event.analyseScan, Event.closeScan] = [] := rfl
  rw [htr, measureEvents_append, measureEvents_append, measureEvents_append,
    h1, h2, h3]
  simp only [List.nil_append, List.append_nil]
  have := hbound t rfl (by omega)
  omega

/-! ### Scan-loop lemmas: an exception inside the loops skips the finish
phase (return-to-origin, `analyse_scan`, `close_scan`) -/

theorem scan_inner3_noFinish (sF : List Nat → Bool) (ab : Option Nat)
    (ax2 : String) (sa2 : List ℚ) (j k : Nat) (il : List Nat) (st : LoopSt) :
    ∃ d, (stOfL (scan_inner3 sF ab ax2 sa2 j k il st)).trace = st.trace ++ d ∧
      noFinish d := by
  induction il generalizing st with
  | nil => exact ⟨[], by simp [scan_inner3, stOfL], by simp [noFinish]⟩
  | cons i rest ih =>
    by_cases habort : readAbort ab st.idx = true
    · exact ⟨[], by simp [scan_inner3, habort, stOfL], by simp [noFinish]⟩
    · by_cases hfail : sF [i, j, k] = true
      · refine ⟨[Event.move ax2 (sa2.getD i 0), Event.measure [i, j, k]],
          ?_, by simp [noFinish]⟩
        simp only [scan_inner3]
        rw [if_neg habort, if_pos hfail]
        rfl
      · have step : scan_inner3 sF ab ax2 sa2 j k (i :: rest) st =
            scan_inner3 sF ab ax2 sa2 j k rest
              { st with
                trace := st.trace ++ [Event.move ax2 (sa2.getD i 0),
                  Event.measure [i, j, k]]
                idx := st.idx + 1 } := by
          simp only [scan_inner3]
          rw [if_neg habort, if_neg hfail]
        obtain ⟨d, htr, hnf⟩ := ih
          { st with
            trace := st.trace ++ [Event.move ax2 (sa2.getD i 0),
              Event.measure [i, j, k]]
            idx := st.idx + 1 }
        dsimp only at htr
        refine ⟨[Event.move ax2 (sa2.getD i 0), Event.measure [i, j, k]] ++ d,
          ?_, ?_⟩
        · rw [step, htr]
          simp [List.append_assoc]
        · exact ⟨by simp [hnf.1], by simp [hnf.2]⟩

/-- One-step unfolding of the middle loop for a 3-axis scan (no abort seen). -/
theorem scan_mid_three_step (sF : List Nat → Bool) (ab : Option Nat)
    (ax1 ax2 : String) (sa1 sa2 : List ℚ) (sh2 k j : Nat) (rest : List Nat)
    (st : LoopSt) (habort : ¬ readAbort ab st.idx = true) :
    scan_mid sF ab 3 ax1 ax2 sa1 sa2 sh2 k (j :: rest) st =
      (match scan_inner3 sF ab ax2 sa2 j k
          (if !st.rev3 then (List.range sh2).reverse else List.range sh2)
          { st with
            trace := st.trace ++ [Event.move ax1 (sa1.getD j 0)]
            rev3 := !st.rev3 } with
        | Except.error e => Except.error e
        | Except.ok st3 => scan_mid sF ab 3 ax1 ax2 sa1 sa2 sh2 k rest st3) := by
  simp only [scan_mid]
  rw [if_neg habort]
  norm_num

/-- One-step unfolding of the middle loop for a 2-axis scan (no abort seen). -/
theorem scan_mid_two_step (sF : List Nat → Bool) (ab : Option Nat)
    (ax1 ax2 : String) (sa1 sa2 : List ℚ) (sh2 k j : Nat) (rest : List Nat)
    (st : LoopSt) (habort : ¬ readAbort ab st.idx = true) :
    scan_mid sF ab 2 ax1 ax2 sa1 sa2 sh2 k (j :: rest) st =
      (if sF [j, k] = true then
        Except.error ("scan_function exception",
          { st with trace := (st.trace ++ [Event.move ax1 (sa1.getD j 0)]) ++
            [Event.measure [j, k]] })
      else scan_mid sF ab 2 ax1 ax2 sa1 sa2 sh2 k rest
        { st with
          trace := (st.trace ++ [Event.move ax1 (sa1.getD j 0)]) ++
            [Event.measure [j, k]]
          idx := st.idx + 1 }) := by
  simp only [scan_mid]
  rw [if_neg habort]
  norm_num

/-- One-step unfolding of the middle loop for more than three axes (no abort
seen): only the `axes[-2]` move happens; no branch measures. -/
theorem scan_mid_high_step (sF : List Nat → Bool) (ab : Option Nat) (n : Nat)
    (ax1 ax2 : String) (sa1 sa2 : List ℚ) (sh2 k j : Nat) (rest : List Nat)
    (st : LoopSt) (habort : ¬ readAbort ab st.idx = true)
    (hn3 : n ≠ 3) (hn2 : n ≠ 2) :
    scan_mid sF ab n ax1 ax2 sa1 sa2 sh2 k (j :: rest) st =
      scan_mid sF ab n ax1 ax2 sa1 sa2 sh2 k rest
        { st with trace := st.trace ++ [Event.move ax1 (sa1.getD j 0)] } := by
  simp only [scan_mid]
  rw [if_neg habort]
  dsimp only
  rw [if_neg hn3, if_neg hn2]

/-- One-step unfolding of the outer loop (no abort seen). -/
theorem scan_outer_step (sF : List Nat → Bool) (ab : Option Nat) (n : Nat)
    (ax0 ax1 ax2 : String) (sa0 sa1 sa2 : List ℚ) (sh1 sh2 nl k : Nat)
    (rest : List Nat) (st : LoopSt) (habort : ¬ readAbort ab st.idx = true) :
    scan_outer sF ab n ax0 ax1 ax2 sa0 sa1 sa2 sh1 sh2 nl (k :: rest) st =
      (match scan_mid sF ab n ax1 ax2 sa1 sa2 sh2 k
          (if !st.rev2 then (List.range sh1).reverse else List.range sh1)
          { st with
            trace := st.trace ++ [Event.driftCompensation,
              Event.statusSet (layerStatus k nl), Event.move ax0 (sa0.getD k 0)]
            status := layerStatus k nl
            rev2 := !st.rev2 } with
        | Except.error e => Except.error e
        | Except.ok st2 =>
          scan_outer sF ab n ax0 ax1 ax2 sa0 sa1 sa2 sh1 sh2 nl rest st2) := by
  simp only [scan_outer]
  rw [if_neg habort]

theorem scan_mid_noFinish (sF : List Nat → Bool) (ab : Option Nat) (n : Nat)
    (ax1 ax2 : String) (sa1 sa2 : List ℚ) (sh2 k : Nat) (jl : List Nat)
    (st : LoopSt) :
    ∃ d, (stOfL (scan_mid sF ab n ax1 ax2 sa1 sa2 sh2 k jl st)).trace =
      st.trace ++ d ∧ noFinish d := by
  induction jl generalizing st with
  | nil => exact ⟨[], by simp [scan_mid, stOfL], by simp [noFinish]⟩
  | cons j rest ih =>
    by_cases habort : readAbort ab st.idx = true
    · exact ⟨[], by simp [scan_mid, habort, stOfL], by simp [noFinish]⟩
    · by_cases hn3 : n = 3
      · subst hn3
        rw [scan_mid_three_step sF ab ax1 ax2 sa1 sa2 sh2 k j rest st habort]
        obtain ⟨d1, htr1, hnf1⟩ := scan_inner3_noFinish sF ab ax2 sa2 j k
          (if !st.rev3 then (List.range sh2).reverse else List.range sh2)
          { st with
            trace := st.trace ++ [Event.move ax1 (sa1.getD j 0)]
            rev3 := !st.rev3 }
        rcases hres : scan_inner3 sF ab ax2 sa2 j k
            (if !st.rev3 then (List.range sh2).reverse else List.range sh2)
            { st with
              trace := st.trace ++ [Event.move ax1 (sa1.getD j 0)]
              rev3 := !st.rev3 } with e | st3
        · rw [hres] at htr1
          dsimp only [stOfL] at htr1
          refine ⟨[Event.move ax1 (sa1.getD j 0)] ++ d1, ?_,
            ⟨by simp [hnf1.1], by simp [hnf1.2]⟩⟩
          dsimp only [stOfL]
          rw [htr1]
          simp [List.append_assoc]
        · rw [hres] at htr1
          dsimp only [stOfL] at htr1
          dsimp only
          obtain ⟨d2, htr2, hnf2⟩ := ih st3
          refine ⟨[Event.move ax1 (sa1.getD j 0)] ++ d1 ++ d2, ?_,
            ⟨by simp [hnf1.1, hnf2.1], by simp [hnf1.2, hnf2.2]⟩⟩
          rw [htr2, htr1]
          simp [List.append_assoc]
      · by_cases hn2 : n = 2
        · subst hn2
          rw [scan_mid_two_step sF ab ax1 ax2 sa1 sa2 sh2 k j rest st habort]
          by_cases hfail : sF [j, k] = true
          · rw [if_pos hfail]
            refine ⟨[Event.move ax1 (sa1.getD j 0), Event.measure [j, k]],
              ?_, ⟨by simp, by simp⟩⟩
            dsimp only [stOfL]
            simp [List.append_assoc]
          · rw [if_neg hfail]
            obtain ⟨d2, htr2, hnf2⟩ := ih
              { st with
                trace := (st.trace ++ [Event.move ax1 (sa1.getD j 0)]) ++
                  [Event.measure [j, k]]
                idx := st.idx + 1 }
            dsimp only at htr2
            refine ⟨[Event.move ax1 (sa1.getD j 0), Event.measure [j, k]] ++ d2,
              ?_, ⟨by simp [hnf2.1], by simp [hnf2.2]⟩⟩
            rw [htr2]
            simp [List.append_assoc]
        · rw [scan_mid_high_step sF ab n ax1 ax2 sa1 sa2 sh2 k j rest st
            habort hn3 hn2]
          obtain ⟨d2, htr2, hnf2⟩ := ih
            { st with trace := st.trace ++ [Event.move ax1 (sa1.getD j 0)] }
          dsimp only at htr2
          refine ⟨[Event.move ax1 (sa1.getD j 0)] ++ d2, ?_,
            ⟨by simp [hnf2.1], by simp [hnf2.2]⟩⟩
          rw [htr2]
          simp [List.append_assoc]

theorem scan_outer_noFinish (sF : List Nat → Bool) (ab : Option Nat) (n : Nat)
    (ax0 ax1 ax2 : String) (sa0 sa1 sa2 : List ℚ) (sh1 sh2 nl : Nat)
    (kl : List Nat) (st : LoopSt) :
    ∃ d, (stOfL (scan_outer sF ab n ax0 ax1 ax2 sa0 sa1 sa2 sh1 sh2 nl
      kl st)).trace = st.trace ++ d ∧ noFinish d := by
  induction kl generalizing st with
  | nil => exact ⟨[], by simp [scan_outer, stOfL], by simp [noFinish]⟩
  | cons k rest ih =>
    by_cases habort : readAbort ab st.idx = true
    · exact ⟨[], by simp [scan_outer, habort, stOfL], by simp [noFinish]⟩
    · rw [scan_outer_step sF ab n ax0 ax1 ax2 sa0 sa1 sa2 sh1 sh2 nl k rest
        st habort]
      obtain ⟨d1, htr1, hnf1⟩ := scan_mid_noFinish sF ab n ax1 ax2 sa1 sa2
        sh2 k (if !st.rev2 then (List.range sh1).reverse else List.range sh1)
        { st with
          trace := st.trace ++ [Event.driftCompensation,
            Event.statusSet (layerStatus k nl), Event.move ax0 (sa0.getD k 0)]
          status := layerStatus k nl
          rev2 := !st.rev2 }
      rcases hres : scan_mid sF ab n ax1 ax2 sa1 sa2 sh2 k
          (if !st.rev2 then (List.range sh1).reverse else List.range sh1)
          { st with
            trace := st.trace ++ [Event.driftCompensation,
              Event.statusSet (layerStatus k nl), Event.move ax0 (sa0.getD k 0)]
            status := layerStatus k nl
            rev2 := !st.rev2 } with e | st2
      · rw [hres] at htr1
        dsimp only [stOfL] at htr1
        refine ⟨[Event.driftCompensation, Event.statusSet (layerStatus k nl),
          Event.move ax0 (sa0.getD k 0)] ++ d1, ?_,
          ⟨by simp [hnf1.1], by simp [hnf1.2]⟩⟩
        dsimp only [stOfL]
        rw [htr1]
        simp [List.append_assoc]
      · rw [hres] at htr1
        dsimp only [stOfL] at htr1
        dsimp only
        obtain ⟨d2, htr2, hnf2⟩ := ih st2
        refine ⟨[Event.driftCompensation, Event.statusSet (layerStatus k nl),
          Event.move ax0 (sa0.getD k 0)] ++ d1 ++ d2, ?_,
          ⟨by simp [hnf1.1, hnf2.1], by simp [hnf1.2, hnf2.2]⟩⟩
        rw [htr2, htr1]
        simp [List.append_assoc]

end GridScanner

namespace GridScanner

/-- Witness for C3 on the (3,2) grid with abort requested after 2 points. -/
theorem abort_honored_witness :
    ∃ out, scan_grid ["x", "y"] [((3 : ℕ) : ℚ) - 1, ((2 : ℕ) : ℚ) - 1]
        [1, 1] [0, 0] "um" "um" "um" (fun _ => false) (some 2) =
        Except.ok out ∧
      (measureEvents out.trace).length ≤ 2 ∧
      (∃ pre, out.trace = pre ++ [Event.move "x" 0, Event.move "y" 0,
        Event.analyseScan, Event.closeScan]) ∧
      out.status = "scan complete" :=
  abort_honored 3 2 2 (by norm_num) (by norm_num) 0 0

/-! ### A concrete failing scan -/

/-- Concrete run: a 1x1 grid with `init = (3, 4)` whose `scan_function`
raises at the first (only) point.  The scan raises immediately after the
first measurement attempt: the trace ends at the `measure` event — no
return-to-origin move (`move "x" 3`, `move "y" 4`), no `analyse_scan`, no
`close_scan` — and the status is still the layer status. -/
theorem scan_fail_concrete :
    scan_grid ["x", "y"] [0, 0] [1, 1] [3, 4] "um" "um" "um"
      (fun l => l == [0, 0]) none =
    Except.error ("scan_function exception",
      { trace := [Event.openScan, Event.statusSet "acquiring data",
          Event.driftCompensation, Event.statusSet (layerStatus 0 1),
          Event.move "y" (1 / 250000), Event.move "x" (3 / 1000000),
          Event.measure [0, 0]]
        status := layerStatus 0 1
        index := 0 }) := by
  have hinit := init_grid_two 1 1 (le_refl 1) (le_refl 1) 3 4
  rw [show ((1 : ℕ) : ℚ) - 1 = 0 by norm_num] at hinit
  unfold scan_grid
  rw [hinit]
  dsimp only
  simp only [List.length_cons, List.length_nil, List.reverse_cons,
    List.reverse_nil, List.nil_append, List.cons_append, List.getD_cons_zero,
    List.getD_cons_succ, List.getD_nil, Nat.reduceAdd, reduceIte]
  rw [show List.range 1 = [0] from rfl]
  rw [if_neg (by norm_num : ¬ (2 < 2))]
  rw [scan_outer_step (fun l => l == [0, 0]) none 2 "y" "x" ""
    (List.map (fun (i : Nat) => (i : ℚ) * (1 * (1 / 1000000)) -
      0 * (1 / 1000000) / 2 + 4 * (1 / 1000000)) [0])
    (List.map (fun (i : Nat) => (i : ℚ) * (1 * (1 / 1000000)) -
      0 * (1 / 1000000) / 2 + 3 * (1 / 1000000)) [0]) [] 1 0 1 0 []
    { trace := [Event.openScan, Event.statusSet "acquiring data"]
      status := "acquiring data"
      idx := 0
      rev2 := false
      rev3 := false } (by simp [readAbort])]
  dsimp only
  simp only [List.cons_append, List.nil_append, Bool.not_false, reduceIte,
    List.map_cons, List.map_nil, List.getD_cons_zero, List.getD_cons_succ,
    List.getD_nil, Nat.cast_zero]
  rw [show (0 : ℚ) * (1 * (1 / 1000000)) - 0 * (1 / 1000000) / 2 +
    4 * (1 / 1000000) = 1 / 250000 from by norm_num]
  rw [show (0 : ℚ) * (1 * (1 / 1000000)) - 0 * (1 / 1000000) / 2 +
    3 * (1 / 1000000) = 3 / 1000000 from by norm_num]
  rw [show (List.range 1).reverse = [0] from rfl]
  rw [scan_mid_two_step (fun l => l == [0, 0]) none "x" "" [3 / 1000000] []
    0 0 0 []
    { trace := [Event.openScan, Event.statusSet "acquiring data",
        Event.driftCompensation, Event.statusSet (layerStatus 0 1),
        Event.move "y" (1 / 250000)]
      status := layerStatus 0 1
      idx := 0
      rev2 := true
      rev3 := false } (by simp [readAbort])]
  simp only [beq_self_eq_true, reduceIte]
  simp only [List.getD_cons_zero, List.cons_append, List.nil_append]

/-! ### C1 -/

/-- Counterexample to C1 as stated: with `init = (3, 4)` and a
`scan_function` that raises at the first point, the exception propagates
out of `scan_grid` with a trace containing no move back to the configured
init positions (`move "x" 3`, `move "y" 4` are absent) and no
`analyse_scan`/`close_scan` — the return-to-origin cleanup was NOT
attempted before the exception escaped (there is no try/finally around the
scan loops). -/
theorem exception_skips_cleanup_counterexample :
    isError (scan_grid ["x", "y"] [0, 0] [1, 1] [3, 4] "um" "um" "um"
      (fun l => l == [0, 0]) none) = true ∧
    Event.move "x" 3 ∉ (outcomeOf (scan_grid ["x", "y"] [0, 0] [1, 1] [3, 4]
      "um" "um" "um" (fun l => l == [0, 0]) none)).trace ∧
    Event.move "y" 4 ∉ (outcomeOf (scan_grid ["x", "y"] [0, 0] [1, 1] [3, 4]
      "um" "um" "um" (fun l => l == [0, 0]) none)).trace ∧
    Event.analyseScan ∉ (outcomeOf (scan_grid ["x", "y"] [0, 0] [1, 1] [3, 4]
      "um" "um" "um" (fun l => l == [0, 0]) none)).trace ∧
    Event.closeScan ∉ (outcomeOf (scan_grid ["x", "y"] [0, 0] [1, 1] [3, 4]
      "um" "um" "um" (fun l => l == [0, 0]) none)).trace := by
  rw [scan_fail_concrete]
  refine ⟨rfl, ?_, ?_, ?_, ?_⟩ <;>
    simp [outcomeOf, layerStatus] <;> norm_num

/-- C1 (corrected): an exception raised by the per-point measurement
function during a running scan propagates out of `scan_grid` immediately:
the finish phase — the return-to-origin moves followed by `analyse_scan`
and `close_scan`, which `scan_grid` performs only after the loops exit
normally or via abort — is not attempted before the exception escapes.  In
particular neither `analyse_scan` nor `close_scan` occurs in the trace of
any erroring scan (there is no try/finally in `scan_grid`). -/
theorem exception_skips_cleanup (axes : List String) (size step init : List ℚ)
    (su stu iu : String) (sF : List Nat → Bool) (ab : Option Nat)
    (e : String × ScanOutcome)
    (h : scan_grid axes size step init su stu iu sF ab = Except.error e) :
    Event.analyseScan ∉ e.2.trace ∧ Event.closeScan ∉ e.2.trace := by
  unfold scan_grid at h
  split at h
  · next msg heq =>
      injection h with h2
      subst h2
      exact ⟨by simp, by simp⟩
  · next g heq =>
      dsimp only at h
      split at h
      · injection h with h2
        subst h2
        exact ⟨by simp, by simp⟩
      · split at h
        · next msg st heq2 =>
            injection h with h2
            subst h2
            obtain ⟨d, htr, hnf⟩ := scan_outer_noFinish sF ab axes.length
              (axes.reverse.getD 0 "") (axes.reverse.getD 1 "")
              (axes.reverse.getD 2 "") (g.scan_axes.reverse.getD 0 [])
              (g.scan_axes.reverse.getD 1 []) (g.scan_axes.reverse.getD 2 [])
              (g.grid_shape.reverse.getD 1 0) (g.grid_shape.reverse.getD 2 0)
              (g.grid_shape.reverse.getD 0 0)
              (List.range (g.grid_shape.reverse.getD 0 0))
              { trace := [Event.openScan, Event.statusSet "acquiring data"]
                status := "acquiring data"
                idx := 0
                rev2 := false
                rev3 := false }
            rw [heq2] at htr
            dsimp only [stOfL] at htr
            constructor
            · show Event.analyseScan ∉ st.trace
              rw [htr]
              simp [hnf.1]
            · show Event.closeScan ∉ st.trace
              rw [htr]
              simp [hnf.2]
        · exact Except.noConfusion h

/-- Witness for C1 (amended), at the concrete failing scan. -/
theorem exception_skips_cleanup_witness :
    Event.analyseScan ∉
      ([Event.openScan, Event.statusSet "acquiring data",
        Event.driftCompensation, Event.statusSet (layerStatus 0 1),
        Event.move "y" (1 / 250000), Event.move "x" (3 / 1000000),
        Event.measure [0, 0]] : List Event) ∧
    Event.closeScan ∉
      ([Event.openScan, Event.statusSet "acquiring data",
        Event.driftCompensation, Event.statusSet (layerStatus 0 1),
        Event.move "y" (1 / 250000), Event.move "x" (3 / 1000000),
        Event.measure [0, 0]] : List Event) :=
  exception_skips_cleanup ["x", "y"] [0, 0] [1, 1] [3, 4] "um" "um" "um"
    (fun l => l == [0, 0]) none
    ("scan_function exception",
      { trace := [Event.openScan, Event.statusSet "acquiring data",
          Event.driftCompensation, Event.statusSet (layerStatus 0 1),
          Event.move "y" (1 / 250000), Event.move "x" (3 / 1000000),
          Event.measure [0, 0]]
        status := layerStatus 0 1
        index := 0 }) scan_fail_concrete

/-! ### Scan-loop lemmas: more than three axes -/

theorem measureEvents_moves (ax : String) (sa : List ℚ) (jl : List Nat) :
    measureEvents (jl.map (fun j => Event.move ax (sa.getD j 0))) = [] := by
  induction jl with
  | nil => rfl
  | cons j rest ih =>
    rw [List.map_cons]
    exact ih

theorem measureEvents_pairMoves (l : List (String × ℚ)) :
    measureEvents (l.map (fun p => Event.move p.1 p.2)) = [] := by
  induction l with
  | nil => rfl
  | cons p rest ih =>
    rw [List.map_cons]
    exact ih

/-- With any number of axes other than 2 or 3, the middle loop only moves
`axes[-2]` across its points: no measurement happens, `_index` stays. -/
theorem scan_mid_high (sF : List Nat → Bool) (n : Nat) (hn3 : n ≠ 3)
    (hn2 : n ≠ 2) (ax1 ax2 : String) (sa1 sa2 : List ℚ) (sh2 k : Nat)
    (jl : List Nat) (st : LoopSt) :
    scan_mid sF none n ax1 ax2 sa1 sa2 sh2 k jl st =
      Except.ok { st with
        trace := st.trace ++ jl.map (fun j => Event.move ax1 (sa1.getD j 0)) } := by
  induction jl generalizing st with
  | nil => simp [scan_mid]
  | cons j rest ih =>
    rw [scan_mid_high_step sF none n ax1 ax2 sa1 sa2 sh2 k j rest st
      (by simp [readAbort]) hn3 hn2, ih]
    obtain ⟨tr, stt, ix, r2, r3⟩ := st
    simp [List.append_assoc]

/-- With more than three axes (or any `n ∉ {2,3}`), the outer loop completes
normally whatever the per-point function is, producing no measurements and
leaving `_index` at its initial value. -/
theorem scan_outer_high (sF : List Nat → Bool) (n : Nat) (hn3 : n ≠ 3)
    (hn2 : n ≠ 2) (ax0 ax1 ax2 : String) (sa0 sa1 sa2 : List ℚ)
    (sh1 sh2 nl : Nat) (kl : List Nat) (st : LoopSt) :
    ∃ st2, scan_outer sF none n ax0 ax1 ax2 sa0 sa1 sa2 sh1 sh2 nl kl st =
        Except.ok st2 ∧
      ∃ d, st2.trace = st.trace ++ d ∧ measureEvents d = [] ∧
        st2.idx = st.idx := by
  induction kl generalizing st with
  | nil => exact ⟨st, by simp [scan_outer], [], by simp, rfl, rfl⟩
  | cons k rest ih =>
    rw [scan_outer_step sF none n ax0 ax1 ax2 sa0 sa1 sa2 sh1 sh2 nl k rest
      st (by simp [readAbort])]
    rw [scan_mid_high sF n hn3 hn2 ax1 ax2 sa1 sa2 sh2 k
      (if !st.rev2 then (List.range sh1).reverse else List.range sh1)
      { st with
        trace := st.trace ++ [Event.driftCompensation,
          Event.statusSet (layerStatus k nl), Event.move ax0 (sa0.getD k 0)]
        status := layerStatus k nl
        rev2 := !st.rev2 }]
    dsimp only
    obtain ⟨st2, hrun, d, htr, hm, hidx⟩ := ih
      { st with
        trace := (st.trace ++ [Event.driftCompensation,
          Event.statusSet (layerStatus k nl), Event.move ax0 (sa0.getD k 0)]) ++
          (if !st.rev2 then (List.range sh1).reverse else List.range sh1).map
            (fun j => Event.move ax1 (sa1.getD j 0))
        status := layerStatus k nl
        rev2 := !st.rev2 }
    dsimp only at htr hidx
    refine ⟨st2, hrun,
      [Event.driftCompensation, Event.statusSet (layerStatus k nl),
        Event.move ax0 (sa0.getD k 0)] ++
        (if !st.rev2 then (List.range sh1).reverse else List.range sh1).map
          (fun j => Event.move ax1 (sa1.getD j 0)) ++ d, ?_, ?_, ?_⟩
    · rw [htr]
      simp [List.append_assoc]
    · rw [measureEvents_append, measureEvents_append, measureEvents_moves, hm]
      rfl
    · rw [hidx]

/-- One-step unfolding of the innermost loop when the measurement succeeds. -/
theorem scan_inner3_step (sF : List Nat → Bool) (ab : Option Nat)
    (ax2 : String) (sa2 : List ℚ) (j k i : Nat) (rest : List Nat)
    (st : LoopSt) (habort : ¬ readAbort ab st.idx = true)
    (hfail : ¬ sF [i, j, k] = true) :
    scan_inner3 sF ab ax2 sa2 j k (i :: rest) st =
      scan_inner3 sF ab ax2 sa2 j k rest
        { st with
          trace := st.trace ++ [Event.move ax2 (sa2.getD i 0),
            Event.measure [i, j, k]]
          idx := st.idx + 1 } := by
  simp only [scan_inner3]
  rw [if_neg habort, if_neg hfail]

/-! ### C9 -/

/-- C9 (corrected): a grid scan with more than three axes degrades
gracefully rather than crashing — `scan_grid` completes without raising and
reports `'scan complete'` — but it does not scan the three innermost axes
while ignoring the rest: the traversal iterates only the two outermost
axes, invokes the per-point measurement function at no grid point at all
(whatever that function is), and leaves the completed-point count at 0. -/
theorem high_dim_degrade (axes : List String) (size step init : List ℚ)
    (hn : 4 ≤ axes.length)
    (h1 : size.length = axes.length) (h2 : step.length = axes.length)
    (h3 : init.length = axes.length)
    (hsteps : ∀ x ∈ zip3Q size step init, x.2.1 ≠ 0)
    (sF : List Nat → Bool) :
    ∃ out, scan_grid axes size step init "um" "um" "um" sF none =
        Except.ok out ∧
      measureEvents out.trace = [] ∧ out.status = "scan complete" ∧
      out.index = 0 := by
  have htake : (zip3Q size step init).take axes.length =
      zip3Q size step init := by
    apply List.take_of_length_le
    rw [zip3Q_length size step init (by omega) (by omega), h1]
  obtain ⟨axs, hok, hlen⟩ := buildAxes_ok_of_steps (1 / 1000000) (1 / 1000000)
    (1 / 1000000) (by norm_num) (zip3Q size step init) hsteps
  have hinit : init_grid axes size step init "um" "um" "um" = Except.ok
      { scan_axes := axs
        grid_shape := axs.map List.length
        total_points := (axs.map List.length).prod } := by
    unfold init_grid
    rw [show unit_conversion "um" = some (1 / 1000000) from by
      simp [unit_conversion]]
    dsimp only
    rw [htake, hok]
  unfold scan_grid
  rw [hinit]
  dsimp only
  rw [if_neg (by omega : ¬ axes.length < 2)]
  obtain ⟨st2, hrun, d, htr, hm, hidx⟩ := scan_outer_high sF axes.length
    (by omega) (by omega) (axes.reverse.getD 0 "") (axes.reverse.getD 1 "")
    (axes.reverse.getD 2 "") (axs.reverse.getD 0 []) (axs.reverse.getD 1 [])
    (axs.reverse.getD 2 []) ((axs.map List.length).reverse.getD 1 0)
    ((axs.map List.length).reverse.getD 2 0)
    ((axs.map List.length).reverse.getD 0 0)
    (List.range ((axs.map List.length).reverse.getD 0 0))
    { trace := [Event.openScan, Event.statusSet "acquiring data"]
      status := "acquiring data"
      idx := 0
      rev2 := false
      rev3 := false }
  dsimp only at htr hidx
  rw [hrun]
  dsimp only
  refine ⟨_, rfl, ?_, rfl, hidx⟩
  rw [htr, measureEvents_append, measureEvents_append, measureEvents_append,
    hm, measureEvents_pairMoves]
  rfl

/-- Witness for C9 (amended): a concrete four-axis single-point-per-axis
grid completes with status `'scan complete'` and zero measurements. -/
theorem high_dim_degrade_witness :
    ∃ out, scan_grid ["w", "x", "y", "z"] [0, 0, 0, 0] [1, 1, 1, 1]
        [0, 0, 0, 0] "um" "um" "um" (fun _ => false) none = Except.ok out ∧
      measureEvents out.trace = [] ∧ out.status = "scan complete" ∧
      out.index = 0 :=
  high_dim_degrade ["w", "x", "y", "z"] [0, 0, 0, 0] [1, 1, 1, 1]
    [0, 0, 0, 0] (by norm_num) rfl rfl rfl
    (by
      intro x hx
      simp only [zip3Q, List.mem_cons, List.not_mem_nil, or_false] at hx
      rcases hx with rfl | rfl | rfl | rfl <;> norm_num)
    (fun _ => false)

/-- Concrete 3-axis single-point run: the scan measures its one grid point
`(0,0,0)`. -/
theorem scan_three_concrete :
    ∃ out, scan_grid ["x", "y", "z"] [0, 0, 0] [1, 1, 1] [0, 0, 0]
        "um" "um" "um" (fun _ => false) none = Except.ok out ∧
      measureEvents out.trace = [[0, 0, 0]] := by
  have hcount : (⌈((0 : ℚ) * (1 / 1000000) + 1 * (1 / 1000000) / 2) /
      (1 * (1 / 1000000))⌉).toNat = 1 := by
    have h0 := ceil_points (1 * (1 / 1000000)) (by norm_num) 0
    rw [show ((0 : ℕ) : ℚ) * (1 * (1 / 1000000)) =
      (0 : ℚ) * (1 / 1000000) by norm_num] at h0
    exact h0
  have hinit : init_grid ["x", "y", "z"] [0, 0, 0] [1, 1, 1] [0, 0, 0]
      "um" "um" "um" = Except.ok
      { scan_axes :=
          [(List.range 1).map (fun (i : Nat) => (i : ℚ) * (1 * (1 / 1000000)) -
              0 * (1 / 1000000) / 2 + 0 * (1 / 1000000)),
            (List.range 1).map (fun (i : Nat) => (i : ℚ) * (1 * (1 / 1000000)) -
              0 * (1 / 1000000) / 2 + 0 * (1 / 1000000)),
            (List.range 1).map (fun (i : Nat) => (i : ℚ) * (1 * (1 / 1000000)) -
              0 * (1 / 1000000) / 2 + 0 * (1 / 1000000))]
        grid_shape := [1, 1, 1]
        total_points := 1 } := by
    unfold init_grid
    rw [show unit_conversion "um" = some (1 / 1000000) from by
      simp [unit_conversion]]
    dsimp only
    rw [show (zip3Q [0, 0, 0] [1, 1, 1] [0, 0, 0]).take
        (List.length ["x", "y", "z"]) =
      [((0 : ℚ), (1 : ℚ), (0 : ℚ)), ((0 : ℚ), (1 : ℚ), (0 : ℚ)),
        ((0 : ℚ), (1 : ℚ), (0 : ℚ))] from rfl]
    unfold buildAxes
    rw [buildAxis_ok _ _ _ (by norm_num : (1 : ℚ) * (1 / 1000000) ≠ 0), hcount]
    unfold buildAxes
    rw [buildAxis_ok _ _ _ (by norm_num : (1 : ℚ) * (1 / 1000000) ≠ 0), hcount]
    unfold buildAxes
    rw [buildAxis_ok _ _ _ (by norm_num : (1 : ℚ) * (1 / 1000000) ≠ 0), hcount]
    unfold buildAxes
    dsimp only
    rw [show List.map List.length [(List.range 1).map
        (fun (i : Nat) => (i : ℚ) * (1 * (1 / 1000000)) -
          0 * (1 / 1000000) / 2 + 0 * (1 / 1000000)),
        (List.range 1).map (fun (i : Nat) => (i : ℚ) * (1 * (1 / 1000000)) -
          0 * (1 / 1000000) / 2 + 0 * (1 / 1000000)),
        (List.range 1).map (fun (i : Nat) => (i : ℚ) * (1 * (1 / 1000000)) -
          0 * (1 / 1000000) / 2 + 0 * (1 / 1000000))] = [1, 1, 1] from by
      simp]
    rfl
  unfold scan_grid
  rw [hinit]
  dsimp only
  simp only [List.length_cons, List.length_nil, List.reverse_cons,
    List.reverse_nil, List.nil_append, List.cons_append, List.getD_cons_zero,
    List.getD_cons_succ, List.getD_nil, Nat.reduceAdd, reduceIte,
    List.map_cons, List.map_nil, Nat.cast_zero]
  rw [if_neg (by norm_num : ¬ (3 < 2))]
  rw [show List.range 1 = [0] from rfl]
  simp only [List.map_cons, List.map_nil, Nat.cast_zero]
  rw [show (0 : ℚ) * (1 * (1 / 1000000)) - 0 * (1 / 1000000) / 2 +
    0 * (1 / 1000000) = 0 from by norm_num]
  rw [scan_outer_step (fun _ => false) none 3 "z" "y" "x" [0] [0] [0] 1 1 1 0 []
    { trace := [Event.openScan, Event.statusSet "acquiring data"]
      status := "acquiring data"
      idx := 0
      rev2 := false
      rev3 := false } (by simp [readAbort])]
  dsimp only
  simp only [List.cons_append, List.nil_append, Bool.not_false, reduceIte,
    List.getD_cons_zero]
  rw [show (List.range 1).reverse = [0] from rfl]
  rw [scan_mid_three_step (fun _ => false) none "y" "x" [0] [0] 1 0 0 []
    { trace := [Event.openScan, Event.statusSet "acquiring data",
        Event.driftCompensation, Event.statusSet (layerStatus 0 1),
        Event.move "z" 0]
      status := layerStatus 0 1
      idx := 0
      rev2 := true
      rev3 := false } (by simp [readAbort])]
  dsimp only
  simp only [List.cons_append, List.nil_append, Bool.not_false, reduceIte,
    List.getD_cons_zero]
  rw [show (List.range 1).reverse = [0] from rfl]
  rw [scan_inner3_step (fun _ => false) none "x" [0] 0 0 0 []
    { trace := [Event.openScan, Event.statusSet "acquiring data",
        Event.driftCompensation, Event.statusSet (layerStatus 0 1),
        Event.move "z" 0, Event.move "y" 0]
      status := layerStatus 0 1
      idx := 0
      rev2 := true
      rev3 := true } (by simp [readAbort]) (by simp)]
  dsimp only
  simp only [List.cons_append, List.nil_append, List.getD_cons_zero]
  rw [show scan_inner3 (fun _ => false) none "x" [0] 0 0 []
    { trace := [Event.openScan, Event.statusSet "acquiring data",
        Event.driftCompensation, Event.statusSet (layerStatus 0 1),
        Event.move "z" 0, Event.move "y" 0, Event.move "x" 0,
        Event.measure [0, 0, 0]]
      status := layerStatus 0 1
      idx := 1
      rev2 := true
      rev3 := true } = Except.ok
    { trace := [Event.openScan, Event.statusSet "acquiring data",
        Event.driftCompensation, Event.statusSet (layerStatus 0 1),
        Event.move "z" 0, Event.move "y" 0, Event.move "x" 0,
        Event.measure [0, 0, 0]]
      status := layerStatus 0 1
      idx := 1
      rev2 := true
      rev3 := true } from rfl]
  dsimp only
  rw [show scan_mid (fun _ => false) none 3 "y" "x" [0] [0] 1 0 []
    { trace := [Event.openScan, Event.statusSet "acquiring data",
        Event.driftCompensation, Event.statusSet (layerStatus 0 1),
        Event.move "z" 0, Event.move "y" 0, Event.move "x" 0,
        Event.measure [0, 0, 0]]
      status := layerStatus 0 1
      idx := 1
      rev2 := true
      rev3 := true } = Except.ok
    { trace := [Event.openScan, Event.statusSet "acquiring data",
        Event.driftCompensation, Event.statusSet (layerStatus 0 1),
        Event.move "z" 0, Event.move "y" 0, Event.move "x" 0,
        Event.measure [0, 0, 0]]
      status := layerStatus 0 1
      idx := 1
      rev2 := true
      rev3 := true } from rfl]
  dsimp only
  rw [show scan_outer (fun _ => false) none 3 "z" "y" "x" [0] [0] [0] 1 1 1 []
    { trace := [Event.openScan, Event.statusSet "acquiring data",
        Event.driftCompensation, Event.statusSet (layerStatus 0 1),
        Event.move "z" 0, Event.move "y" 0, Event.move "x" 0,
        Event.measure [0, 0, 0]]
      status := layerStatus 0 1
      idx := 1
      rev2 := true
      rev3 := true } = Except.ok
    { trace := [Event.openScan, Event.statusSet "acquiring data",
        Event.driftCompensation, Event.statusSet (layerStatus 0 1),
        Event.move "z" 0, Event.move "y" 0, Event.move "x" 0,
        Event.measure [0, 0, 0]]
      status := layerStatus 0 1
      idx := 1
      rev2 := true
      rev3 := true } from rfl]
  dsimp only
  exact ⟨_, rfl, rfl⟩

/-- Concrete 4-axis single-point-per-axis run: the scan completes but the
measurement function is never invoked. -/
theorem scan_four_concrete :
    ∃ out, scan_grid ["w", "x", "y", "z"] [0, 0, 0, 0] [1, 1, 1, 1]
        [0, 0, 0, 0] "um" "um" "um" (fun _ => false) none = Except.ok out ∧
      measureEvents out.trace = [] := by
  have hcount : (⌈((0 : ℚ) * (1 / 1000000) + 1 * (1 / 1000000) / 2) /
      (1 * (1 / 1000000))⌉).toNat = 1 := by
    have h0 := ceil_points (1 * (1 / 1000000)) (by norm_num) 0
    rw [show ((0 : ℕ) : ℚ) * (1 * (1 / 1000000)) =
      (0 : ℚ) * (1 / 1000000) by norm_num] at h0
    exact h0
  have hinit : init_grid ["w", "x", "y", "z"] [0, 0, 0, 0] [1, 1, 1, 1]
      [0, 0, 0, 0] "um" "um" "um" = Except.ok
      { scan_axes :=
          [(List.range 1).map (fun (i : Nat) => (i : ℚ) * (1 * (1 / 1000000)) -
              0 * (1 / 1000000) / 2 + 0 * (1 / 1000000)),
            (List.range 1).map (fun (i : Nat) => (i : ℚ) * (1 * (1 / 1000000)) -
              0 * (1 / 1000000) / 2 + 0 * (1 / 1000000)),
            (List.range 1).map (fun (i : Nat) => (i : ℚ) * (1 * (1 / 1000000)) -
              0 * (1 / 1000000) / 2 + 0 * (1 / 1000000)),
            (List.range 1).map (fun (i : Nat) => (i : ℚ) * (1 * (1 / 1000000)) -
              0 * (1 / 1000000) / 2 + 0 * (1 / 1000000))]
        grid_shape := [1, 1, 1, 1]
        total_points := 1 } := by
    unfold init_grid
    rw [show unit_conversion "um" = some (1 / 1000000) from by
      simp [unit_conversion]]
    dsimp only
    rw [show (zip3Q [0, 0, 0, 0] [1, 1, 1, 1] [0, 0, 0, 0]).take
        (List.length ["w", "x", "y", "z"]) =
      [((0 : ℚ), (1 : ℚ), (0 : ℚ)), ((0 : ℚ), (1 : ℚ), (0 : ℚ)),
        ((0 : ℚ), (1 : ℚ), (0 : ℚ)), ((0 : ℚ), (1 : ℚ), (0 : ℚ))] from rfl]
    unfold buildAxes
    rw [buildAxis_ok _ _ _ (by norm_num : (1 : ℚ) * (1 / 1000000) ≠ 0), hcount]
    unfold buildAxes
    rw [buildAxis_ok _ _ _ (by norm_num : (1 : ℚ) * (1 / 1000000) ≠ 0), hcount]
    unfold buildAxes
    rw [buildAxis_ok _ _ _ (by norm_num : (1 : ℚ) * (1 / 1000000) ≠ 0), hcount]
    unfold buildAxes
    rw [buildAxis_ok _ _ _ (by norm_num : (1 : ℚ) * (1 / 1000000) ≠ 0), hcount]
    unfold buildAxes
    dsimp only
    rw [show List.map List.length [(List.range 1).map
        (fun (i : Nat) => (i : ℚ) * (1 * (1 / 1000000)) -
          0 * (1 / 1000000) / 2 + 0 * (1 / 1000000)),
        (List.range 1).map (fun (i : Nat) => (i : ℚ) * (1 * (1 / 1000000)) -
          0 * (1 / 1000000) / 2 + 0 * (1 / 1000000)),
        (List.range 1).map (fun (i : Nat) => (i : ℚ) * (1 * (1 / 1000000)) -
          0 * (1 / 1000000) / 2 + 0 * (1 / 1000000)),
        (List.range 1).map (fun (i : Nat) => (i : ℚ) * (1 * (1 / 1000000)) -
          0 * (1 / 1000000) / 2 + 0 * (1 / 1000000))] = [1, 1, 1, 1] from by
      simp]
    rfl
  unfold scan_grid
  rw [hinit]
  dsimp only
  simp only [List.length_cons, List.length_nil, List.reverse_cons,
    List.reverse_nil, List.nil_append, List.cons_append, List.getD_cons_zero,
    List.getD_cons_succ, List.getD_nil, Nat.reduceAdd, reduceIte,
    List.map_cons, List.map_nil, Nat.cast_zero]
  rw [if_neg (by norm_num : ¬ (4 < 2))]
  rw [show List.range 1 = [0] from rfl]
  simp only [List.map_cons, List.map_nil, Nat.cast_zero]
  rw [show (0 : ℚ) * (1 * (1 / 1000000)) - 0 * (1 / 1000000) / 2 +
    0 * (1 / 1000000) = 0 from by norm_num]
  obtain ⟨st2, hrun, d, htr, hm, hidx⟩ := scan_outer_high (fun _ => false) 4
    (by norm_num) (by norm_num) "z" "y" "x" [0] [0] [0] 1 1 1 [0]
    { trace := [Event.openScan, Event.statusSet "acquiring data"]
      status := "acquiring data"
      idx := 0
      rev2 := false
      rev3 := false }
  dsimp only at htr
  rw [hrun]
  dsimp only
  refine ⟨_, rfl, ?_⟩
  rw [htr, measureEvents_append, measureEvents_append, measureEvents_append,
    hm, measureEvents_pairMoves]
  rfl

/-- C9 counterexample: on a concrete four-axis grid whose four axes each
hold the single point 0, `scan_grid` completes without raising but performs
no measurement at all, whereas the same scan restricted to the three
innermost axes measures the grid point `(0,0,0)` — so the four-axis scan
path does not merely "ignore axes beyond the third while iterating": it
drops the measurement loop entirely. -/
theorem high_dim_counterexample :
    ∃ out4 out3,
      scan_grid ["w", "x", "y", "z"] [0, 0, 0, 0] [1, 1, 1, 1] [0, 0, 0, 0]
        "um" "um" "um" (fun _ => false) none = Except.ok out4 ∧
      scan_grid ["x", "y", "z"] [0, 0, 0] [1, 1, 1] [0, 0, 0]
        "um" "um" "um" (fun _ => false) none = Except.ok out3 ∧
      measureEvents out3.trace = [[0, 0, 0]] ∧
      measureEvents out4.trace = [] ∧
      measureEvents out4.trace ≠ measureEvents out3.trace := by
  obtain ⟨out4, h4, hm4⟩ := scan_four_concrete
  obtain ⟨out3, h3, hm3⟩ := scan_three_concrete
  refine ⟨out4, out3, h4, h3, hm3, hm4, ?_⟩
  rw [hm4, hm3]
  decide

end GridScanner
